import Mathlib

/-!
# Verification of the NewsAgent preference-learning and cached ranking core

Shallow embedding, over exact rationals, of the two core components of the
repository:

* `models/enhanced_behavior_system.py` — the per-user preference-learning
  engine (`EnhancedBehaviorSystem`): event tracking, anomaly guard, action
  refinement, engagement scoring, adaptive learning rate, weight update and
  smart normalization;
* `models/cached_recommendation_engine.py` — the cached ranking engine
  (`CachedRecommendationEngine`): three TTL caches with insertion-order
  eviction, personalized scoring, diversity selection and round-robin
  interleaving.

Modelling conventions:

* Python `float` arithmetic is embedded as exact rational (`ℚ`) arithmetic.
* Timestamps are rationals measured in hours (behavior system, recency
  scoring) or in the cache clock's seconds (`time.time()`); both clocks are
  explicit parameters of the operations that read them.
* `_calculate_time_weight` computes `max(0.1, 0.95 ** days_ago)`, a real
  exponential with no exact rational value; the step therefore receives the
  value of that expression as an explicit input (`EventIn.tw`).  The code
  guarantees `tw ≥ 1/10 > 0`, and `tw = 1` when the event timestamp equals
  the processing wall clock.
* The persistence collaborator (`db.save_user_behavior`) and the external
  content source are out of scope per the specification; their outcomes are
  explicit inputs (`EventIn.dbSaveOk`, the `apiNews`/`mockNews` arguments).
* Python dicts are embedded as insertion-ordered association lists with
  replace-in-place assignment, matching dict key-order semantics.
* The MD5 cache-key digest is embedded as the identity on the canonicalized
  key content (hash collisions are not modelled).
-/

set_option maxRecDepth 1600000

attribute [local semireducible] Rat.add Rat.mul Rat.inv Rat.sub

namespace NewsAgent

/-! ## Association-list dictionaries (Python `dict`) -/

/-- Dict lookup: first binding of the key, if any. -/
def getA {κ : Type} {β : Type} [DecidableEq κ] : κ → List (κ × β) → Option β
  | _, [] => none
  | k, (k', v) :: rest => if k = k' then some v else getA k rest

/-- Dict assignment `d[k] = v`: replace in place, else append (Python dicts
keep the insertion position of an existing key). -/
def setA {κ : Type} {β : Type} [DecidableEq κ] : κ → β → List (κ × β) → List (κ × β)
  | k, v, [] => [(k, v)]
  | k, v, (k', v') :: rest => if k = k' then (k, v) :: rest else (k', v') :: setA k v rest

/-! ## Categories and preference vectors -/

/-- The fixed eight-category key set of every preference vector
(`_intelligent_preference_update` / `get_user_preferences` defaults). -/
inductive Cat : Type
  | aiMl
  | startupVenture
  | web3Crypto
  | programming
  | hardwareChips
  | consumerTech
  | enterpriseSaas
  | socialMedia
deriving DecidableEq, Repr

/-- The membership test `category in current_prefs`: the key set of the
preference dict is always exactly the eight categories, so the test is
equivalent to recognizing one of the eight category name strings. -/
def parseCat (s : String) : Option Cat :=
  if s = "ai_ml" then some .aiMl
  else if s = "startup_venture" then some .startupVenture
  else if s = "web3_crypto" then some .web3Crypto
  else if s = "programming" then some .programming
  else if s = "hardware_chips" then some .hardwareChips
  else if s = "consumer_tech" then some .consumerTech
  else if s = "enterprise_saas" then some .enterpriseSaas
  else if s = "social_media" then some .socialMedia
  else none

/-- A preference vector: one weight per category (the values of the per-user
preference dict). -/
structure PrefVec where
  aiMl : ℚ
  startupVenture : ℚ
  web3Crypto : ℚ
  programming : ℚ
  hardwareChips : ℚ
  consumerTech : ℚ
  enterpriseSaas : ℚ
  socialMedia : ℚ
deriving DecidableEq, Repr

/-- Read one weight. -/
def getW (w : PrefVec) : Cat → ℚ
  | .aiMl => w.aiMl
  | .startupVenture => w.startupVenture
  | .web3Crypto => w.web3Crypto
  | .programming => w.programming
  | .hardwareChips => w.hardwareChips
  | .consumerTech => w.consumerTech
  | .enterpriseSaas => w.enterpriseSaas
  | .socialMedia => w.socialMedia

/-- Build a vector from a per-category function (used for the loops of
`_smart_normalize_weights`, which assign every key of the dict). -/
def mkW (f : Cat → ℚ) : PrefVec :=
  ⟨f .aiMl, f .startupVenture, f .web3Crypto, f .programming,
   f .hardwareChips, f .consumerTech, f .enterpriseSaas, f .socialMedia⟩

/-- Write one weight (`current_prefs[category] = new_weight`). -/
def setW (w : PrefVec) (c : Cat) (x : ℚ) : PrefVec :=
  mkW fun c' => if c' = c then x else getW w c'

/-- `sum(weights.values())`. -/
def sumW (w : PrefVec) : ℚ :=
  w.aiMl + w.startupVenture + w.web3Crypto + w.programming +
  w.hardwareChips + w.consumerTech + w.enterpriseSaas + w.socialMedia

/-- The lazily created initial vector: uniform `0.125` on all 8 categories. -/
def uniformVec : PrefVec := mkW fun _ => 1/8

/-! ## Learning constants (`behavior_weights`, `learning_config`,
`engagement_thresholds`) -/

/-- `self.behavior_weights.get(action, 0.01)`. -/
def behaviorWeight (a : String) : ℚ :=
  if a = "view" then 1/100
  else if a = "click" then 3/100
  else if a = "read" then 5/100
  else if a = "deep_read" then 12/100
  else if a = "share" then 18/100
  else if a = "like" then 8/100
  else if a = "bookmark" then 10/100
  else if a = "comment" then 6/100
  else if a = "dislike" then -(12/100)
  else if a = "skip" then -(4/100)
  else if a = "report" then -(20/100)
  else if a = "block_category" then -(25/100)
  else 1/100

def minWeight : ℚ := 2/100

def maxWeight : ℚ := 45/100

def baseLearningRate : ℚ := 12/100

def confidenceThreshold : ℚ := 10

/-- `max_days` (30 days) converted to hours, as used by `_cleanup_old_data`. -/
def maxDaysHours : ℚ := 720

/-! ## Events and the behavior-system state -/

/-- An interaction event (`BehaviorEvent`).  `ts` is the timestamp in hours;
`datetime.fromisoformat(...).hour` is recovered as `⌊ts⌋ % 24`. -/
structure BEvent where
  userId : String
  action : String
  newsId : String
  category : String
  title : String
  duration : ℚ
  scroll : ℚ
  ts : ℚ
deriving DecidableEq, Repr

/-- Hour of day of a timestamp. -/
def hourOf (ts : ℚ) : ℤ := (⌊ts⌋ : ℤ) % 24

/-- One event together with the values of the external effects read while
processing it: the wall clock `now` (hours), the floating-point time-decay
factor `tw` returned by `_calculate_time_weight` (always `≥ 1/10`), and the
outcome of the external `db.save_user_behavior` call. -/
structure EventIn where
  ev : BEvent
  now : ℚ
  tw : ℚ
  dbSaveOk : Bool
deriving DecidableEq, Repr

/-- A stored behavior record, restricted to the fields the system dynamics
ever read back from the cache (`action` for confidence, `timestamp` for
cleanup); the remaining stored fields are presentation-only. -/
structure StoredBehavior where
  action : String
  ts : ℚ
deriving DecidableEq, Repr

/-- `self.system_stats`. -/
structure SysStats where
  totalBehaviors : ℕ
  totalUsers : ℕ
  learningUpdates : ℕ
  anomaliesDetected : ℕ
  cacheHits : ℕ
  cacheMisses : ℕ
deriving DecidableEq, Repr

/-- Per-user entry of `self.anomaly_detection`. -/
structure AnomalyRec where
  countLastHour : ℕ
  resetTime : ℚ
deriving DecidableEq, Repr

/-- The mutable state of `EnhancedBehaviorSystem`. -/
structure BSysState where
  behaviors : List (String × List StoredBehavior)
  prefs : List (String × PrefVec)
  anomaly : List (String × AnomalyRec)
  stats : SysStats
deriving DecidableEq, Repr

/-- Fresh system state (empty database / degraded in-memory mode). -/
def initState : BSysState := ⟨[], [], [], ⟨0, 0, 0, 0, 0, 0⟩⟩

/-- The observable preference vector of a user
(`get_user_preferences` returns the cached vector, defaulting to uniform). -/
def prefsView (s : BSysState) (uid : String) : PrefVec :=
  (getA uid s.prefs).getD uniformVec

/-! ## `EnhancedBehaviorSystem` helper methods -/

/-- `_smart_action_adjustment`. -/
def smartActionAdjustment (e : BEvent) : String :=
  if e.action = "read" then
    if e.duration ≥ 90 then
      if e.scroll ≥ 75 then "deep_read" else "read"
    else if e.duration ≤ 15 then "skip"
    else if e.scroll < 25 then "skip"
    else e.action
  else if e.action = "click" then
    if e.duration > 60 then "read"
    else if e.duration ≤ 5 then "skip"
    else e.action
  else e.action

/-- `_calculate_enhanced_engagement`. -/
def calcEnhancedEngagement (e : BEvent) (action : String) : ℚ :=
  let base0 := behaviorWeight action
  let base1 :=
    if (action = "read" ∨ action = "deep_read") ∧ e.duration > 60 then
      base0 * (1 + min (e.duration / 120) 1 * (1/2))
    else base0
  let base2 :=
    if e.scroll > 75 then base1 * (13/10)
    else if e.scroll < 25 then base1 * (7/10)
    else base1
  let h := hourOf e.ts
  let base3 :=
    if 9 ≤ h ∧ h ≤ 17 then base2 * (11/10)
    else if 21 ≤ h ∧ h ≤ 23 then base2 * (12/10)
    else base2
  max (1/1000) base3

/-- `_calculate_user_confidence` (applied to the user's cached behavior
list, `none` when the user is not in the cache). -/
def calcUserConfidence (behaviors : Option (List StoredBehavior)) : ℚ :=
  match behaviors with
  | none => 0
  | some l =>
    let base := min ((l.length : ℚ) / confidenceThreshold) 1
    let base1 :=
      if l.length > 0 then
        base + min (((l.map (·.action)).dedup.length : ℚ) / 6) (2/10)
      else base
    min base1 1

/-- `_calculate_adaptive_learning_rate`. -/
def adaptiveLearningRate (conf : ℚ) : ℚ :=
  if conf < 3/10 then baseLearningRate * (14/10)
  else if conf > 7/10 then baseLearningRate * (8/10)
  else baseLearningRate

/-- `round(x, d)` used for result presentation.  Python rounds floats
half-to-even; the half case does not occur in any statement below, so
half-up is used. -/
def roundQ (d : ℕ) (q : ℚ) : ℚ := (⌊q * 10 ^ d + 1/2⌋ : ℚ) / 10 ^ d

/-- `_detect_anomaly_light`: returns the detection flag and the state with
the (mutated) per-user rolling counter.  Outside `test_mode` the production
branch is an unimplemented stub that always returns `False` without touching
the counters. -/
def detectAnomalyLight (testMode : Bool) (e : BEvent) (s : BSysState) :
    Bool × BSysState :=
  if testMode then
    match getA e.userId s.anomaly with
    | none =>
      (false, { s with anomaly := setA e.userId ⟨0, e.ts⟩ s.anomaly })
    | some a =>
      let a1 := if e.ts - a.resetTime > 1 then (⟨0, e.ts⟩ : AnomalyRec) else a
      let a2 : AnomalyRec := ⟨a1.countLastHour + 1, a1.resetTime⟩
      (decide (a2.countLastHour > 1000),
       { s with anomaly := setA e.userId a2 s.anomaly })
  else (false, s)

/-- `_store_behavior_in_cache`: append, then keep only the last 100. -/
def storeBehaviorInCache (uid : String) (b : StoredBehavior) (s : BSysState) :
    BSysState :=
  let l := (getA uid s.behaviors).getD []
  let l1 := l ++ [b]
  let l2 := if l1.length > 100 then l1.drop (l1.length - 100) else l1
  { s with behaviors := setA uid l2 s.behaviors }

/-- `_cleanup_old_data`: drop cached behaviors older than `max_days`. -/
def cleanupOldData (uid : String) (now : ℚ) (s : BSysState) : BSysState :=
  match getA uid s.behaviors with
  | none => s
  | some l =>
    { s with behaviors := setA uid (l.filter fun b => decide (b.ts > now - maxDaysHours)) s.behaviors }

/-- `_update_statistics`. -/
def updateStatistics (uid : String) (s : BSysState) : BSysState :=
  let s1 := { s with stats := { s.stats with totalBehaviors := s.stats.totalBehaviors + 1 } }
  if getA uid s1.behaviors = none ∨ ((getA uid s1.behaviors).getD []).length = 1 then
    { s1 with stats := { s1.stats with totalUsers := s1.stats.totalUsers + 1 } }
  else s1

/-- Outcome dictionary of `_intelligent_preference_update` (its `error`
shape for an unknown category, or the rounded update report). -/
inductive LearnOutcome : Type
  | unknownCategory (category : String)
  | updated (category : String) (action : String)
      (oldW newW adj lr conf eng : ℚ)
deriving DecidableEq, Repr

/-- `_intelligent_preference_update`. -/
def intelligentPreferenceUpdate (uid category action : String) (engagement tw : ℚ)
    (s : BSysState) : LearnOutcome × BSysState :=
  let prefs0 := (getA uid s.prefs).getD uniformVec
  let s0 := { s with prefs := setA uid prefs0 s.prefs }
  match parseCat category with
  | none => (.unknownCategory category, s0)
  | some cat =>
    let conf := calcUserConfidence (getA uid s0.behaviors)
    let lr := adaptiveLearningRate conf
    let adj := engagement * lr * tw
    let oldW := getW prefs0 cat
    let nw := max minWeight (min maxWeight (oldW + adj))
    let v1 := setW prefs0 cat nw
    let v2 := smartNormalizeWeights v1 cat adj
    let s1 := { s0 with
      prefs := setA uid v2 s0.prefs,
      stats := { s0.stats with learningUpdates := s0.stats.learningUpdates + 1 } }
    (.updated category action (roundQ 4 oldW) (roundQ 4 (getW v2 cat))
       (roundQ 4 adj) (roundQ 4 lr) (roundQ 3 conf) (roundQ 4 engagement), s1)
where
  /-- `_smart_normalize_weights`. -/
  smartNormalizeWeights (w : PrefVec) (updated : Cat) (adjustment : ℚ) : PrefVec :=
    let total := sumW w
    if total ≤ 0 then mkW fun _ => 1/8
    else
      let w1 :=
        if adjustment > 0 then
          let totalOther := total - getW w updated
          if totalOther > 0 ∧ total > 1 then
            let reduction := (total - 1) / totalOther
            mkW fun c =>
              if c = updated then getW w c
              else max minWeight (getW w c * (1 - reduction))
          else w
        else w
      let finalTotal := sumW w1
      if finalTotal > 0 then mkW (fun c => getW w1 c / finalTotal) else w1

/-- The result dictionary returned by `track_behavior`, restricted to its
data content (the `behavior_id` hash string is presentation-only). -/
structure TrackResult where
  success : Bool
  errMsg : Option String
  reason : Option String
  enhancedAction : Option String
  engagementScore : Option ℚ
  learning : Option LearnOutcome
  userConfidence : Option ℚ
deriving DecidableEq, Repr

/-- `track_behavior`: anomaly guard, action refinement, engagement scoring,
external save, cache store, preference update, cleanup, statistics. -/
def trackBehavior (testMode : Bool) (inp : EventIn) (s : BSysState) :
    TrackResult × BSysState :=
  let e := inp.ev
  let det := detectAnomalyLight testMode e s
  if det.1 then
    (⟨false, some "异常行为检测", some "行为频率过高", none, none, none, none⟩,
     { det.2 with stats := { det.2.stats with
         anomaliesDetected := det.2.stats.anomaliesDetected + 1 } })
  else
    let enhanced := smartActionAdjustment e
    let eng := calcEnhancedEngagement e enhanced
    if inp.dbSaveOk then
      let s2 := storeBehaviorInCache e.userId ⟨enhanced, e.ts⟩ det.2
      let upd := intelligentPreferenceUpdate e.userId e.category enhanced eng inp.tw s2
      let s4 := cleanupOldData e.userId inp.now upd.2
      let s5 := updateStatistics e.userId s4
      let conf := calcUserConfidence (getA e.userId s5.behaviors)
      (⟨true, none, none, some enhanced, some eng, some upd.1, some conf⟩, s5)
    else
      (⟨false, some "数据库保存失败", none, none, none, none, none⟩, det.2)

/-- Sequential processing of a list of events. -/
def foldTrack (testMode : Bool) : List EventIn → BSysState → BSysState
  | [], s => s
  | i :: rest, s => foldTrack testMode rest (trackBehavior testMode i s).2

/-! ## `CachedRecommendationEngine`: data model -/

/-- A candidate content item as consumed by the ranking engine.  The engine
reads `title`/`summary`/`category`/`hot_score` with benign defaults; a
well-formed candidate record carries all of them, so they are total fields
here.  `publishTime` is in hours; a missing or unparsable `publish_time`
is `none`. -/
structure News where
  id : String
  title : String
  summary : String
  category : String
  hotScore : ℚ
  publishTime : Option ℚ
deriving DecidableEq, Repr

/-- An item with its computed `personalized_score`. -/
structure Scored where
  item : News
  score : ℚ
deriving DecidableEq, Repr

/-- A cache entry: value plus insertion timestamp (`_set_cache`). -/
structure CacheEntry (α : Type) where
  data : α
  ts : ℚ
deriving DecidableEq, Repr

/-- `self.cache_stats`. -/
structure CacheStats where
  newsHits : ℕ
  newsMisses : ℕ
  recHits : ℕ
  recMisses : ℕ
  totalRequests : ℕ
deriving DecidableEq, Repr

/-- Key content of the per-user score cache: the sorted interest list and
the weight dict (canonicalized by key as `json.dumps(..., sort_keys=True)`
does before hashing). -/
abbrev ScoreKey : Type := List String × List (String × ℚ)

/-- Key content of the recommendation cache: sorted interests, canonical
weights, limit. -/
abbrev RecKey : Type := List String × List (String × ℚ) × ℕ

/-- The mutable state of `CachedRecommendationEngine`. -/
structure EngineState where
  newsCache : List (String × CacheEntry (List News))
  recCache : List (RecKey × CacheEntry (List Scored))
  scoreCache : List (ScoreKey × CacheEntry (List Scored))
  stats : CacheStats
deriving DecidableEq, Repr

/-- Fresh engine state. -/
def initEngine : EngineState := ⟨[], [], [], ⟨0, 0, 0, 0, 0⟩⟩

def newsTtl : ℚ := 30 * 60

def recommendationTtl : ℚ := 10 * 60

def scoreTtl : ℚ := 5 * 60

/-- `_is_cache_valid`. -/
def cacheValid {α : Type} (e : CacheEntry α) (ttl t : ℚ) : Bool :=
  decide (t - e.ts < ttl)

/-- The eviction relation used by `_set_cache`: older entries first. -/
def entOlder {κ α : Type} (x y : κ × CacheEntry α) : Prop := x.2.ts ≤ y.2.ts

instance {κ α : Type} : DecidableRel (entOlder (κ := κ) (α := α)) :=
  fun x y => inferInstanceAs (Decidable (x.2.ts ≤ y.2.ts))

instance {κ α : Type} : IsTotal (κ × CacheEntry α) entOlder :=
  ⟨fun x y => le_total x.2.ts y.2.ts⟩

instance {κ α : Type} : IsTrans (κ × CacheEntry α) entOlder :=
  ⟨fun _ _ _ => le_trans⟩

/-- `_set_cache`: insert (dict assignment), then if the table exceeds 100
entries delete the 20 oldest keys by insertion timestamp. -/
def setCache {κ : Type} [DecidableEq κ] {α : Type} (k : κ) (v : α) (t : ℚ)
    (m : List (κ × CacheEntry α)) : List (κ × CacheEntry α) :=
  let m1 := setA k ⟨v, t⟩ m
  if m1.length > 100 then
    let sorted := List.insertionSort entOlder m1
    let oldKeys := (sorted.take 20).map Prod.fst
    m1.filter fun p => decide (p.1 ∉ oldKeys)
  else m1

/-- `sorted(...)` on strings (Python sorts by code point; ties impossible
on a dict key set). -/
def sortStrings (l : List String) : List String :=
  List.insertionSort (fun a b => a ≤ b) l

/-- Canonical weight dict content under `json.dumps(..., sort_keys=True)`. -/
def canonWeights (w : List (String × ℚ)) : List (String × ℚ) :=
  List.insertionSort (fun a b : String × ℚ => a.1 ≤ b.1) w

/-! ## Scoring (`calculate_personalized_score` and helpers) -/

/-- The static keyword vocabulary `self.interest_categories`
(`[]` for a category not in the table). -/
def interestKeywords (c : String) : List String :=
  if c = "ai_ml" then
    ["ChatGPT", "GPT", "Claude", "Gemini", "机器学习", "深度学习", "LLM",
     "AI Agent", "OpenAI", "Anthropic"]
  else if c = "startup_venture" then
    ["YCombinator", "融资", "创业", "独角兽", "IPO", "风投", "VC", "Series A",
     "Series B", "天使投资"]
  else if c = "web3_crypto" then
    ["Bitcoin", "Ethereum", "区块链", "DeFi", "NFT", "加密货币", "Web3",
     "Solana", "Polygon"]
  else if c = "programming" then
    ["Python", "JavaScript", "React", "Vue", "开源", "GitHub", "框架",
     "TypeScript", "Node.js"]
  else if c = "hardware_chips" then
    ["芯片", "半导体", "GPU", "CPU", "NVIDIA", "AMD", "量子计算", "Intel",
     "Apple Silicon"]
  else if c = "consumer_tech" then
    ["iPhone", "特斯拉", "Apple", "小米", "电动汽车", "智能家居", "Android",
     "Samsung"]
  else if c = "enterprise_saas" then
    ["SaaS", "企业服务", "办公软件", "CRM", "云计算", "AWS", "Azure",
     "Salesforce", "Slack", "Notion"]
  else if c = "social_media" then
    ["Twitter", "抖音", "社交媒体", "直播", "短视频", "Instagram", "TikTok",
     "YouTube", "Facebook", "LinkedIn"]
  else []

/-- The static adjacency table of `_is_related_category`. -/
def relatedTable (c : String) : List String :=
  if c = "ai_ml" then ["programming", "hardware_chips"]
  else if c = "programming" then ["ai_ml", "hardware_chips"]
  else if c = "startup_venture" then ["ai_ml", "web3_crypto", "consumer_tech"]
  else if c = "web3_crypto" then ["startup_venture", "programming"]
  else if c = "hardware_chips" then ["ai_ml", "programming", "consumer_tech"]
  else if c = "consumer_tech" then ["ai_ml", "hardware_chips", "startup_venture"]
  else []

/-- `_is_related_category(category1, category2)`. -/
def isRelatedCategory (c1 c2 : String) : Bool :=
  decide (c2 ∈ relatedTable c1)

/-- `_is_any_related_category`. -/
def isAnyRelated (c : String) (interests : List String) : Bool :=
  interests.any fun i => isRelatedCategory c i

/-- Does `hay` start with `needle`? -/
def charsStart : List Char → List Char → Bool
  | [], _ => true
  | _ :: _, [] => false
  | c :: cs, d :: ds => c = d && charsStart cs ds

/-- Substring occurrence on character lists. -/
def charsHasSub (needle : List Char) : List Char → Bool
  | [] => charsStart needle []
  | d :: ds => charsStart needle (d :: ds) || charsHasSub needle ds

/-- Python `needle in hay` on strings. -/
def strHasSub (hay needle : String) : Bool :=
  charsHasSub needle.data hay.data

/-- Python `str.lower()`, character by character. -/
def lowerStr (s : String) : String := ⟨s.data.map Char.toLower⟩

/-- `user_weights.get(category, 0)`. -/
def weightOf (c : String) (weights : List (String × ℚ)) : ℚ :=
  (getA c weights).getD 0

/-- `_calculate_category_score`. -/
def calcCategoryScore (n : News) (interests : List String)
    (weights : List (String × ℚ)) : ℚ :=
  if n.category ∈ interests then weightOf n.category weights * 5
  else
    interests.foldl
      (fun acc c =>
        if isRelatedCategory n.category c then acc + weightOf c weights * 2
        else acc)
      0

/-- `_calculate_keyword_score`. -/
def calcKeywordScore (n : News) (interests : List String) : ℚ :=
  let text := lowerStr (n.title ++ " " ++ n.summary)
  let kws := interests.flatMap fun c => (interestKeywords c).map lowerStr
  if kws = [] then 0
  else
    let matched := (kws.filter fun k => strHasSub text k).length
    min ((matched : ℚ) / kws.length) 1

/-- `_calculate_time_score` (`now` in hours; `none` models an empty or
unparsable `publish_time`). -/
def calcTimeScore (now : ℚ) (pt : Option ℚ) : ℚ :=
  match pt with
  | none => 1/2
  | some p =>
    let hoursDiff := now - p
    if hoursDiff ≤ 24 then 1
    else if hoursDiff ≤ 48 then 8/10
    else if hoursDiff ≤ 72 then 6/10
    else 4/10

/-- `calculate_personalized_score`. -/
def personalizedScore (n : News) (interests : List String)
    (weights : List (String × ℚ)) (now : ℚ) : ℚ :=
  if interests = [] ∨ weights = [] then 0
  else
    calcCategoryScore n interests weights * (4/10) +
    calcKeywordScore n interests * (3/10) +
    n.hotScore * (2/10) +
    calcTimeScore now n.publishTime * (1/10)

/-- The scoring pass of `get_cached_personalized_scores`: score each item,
keep those above the relevance threshold with the rounded score attached. -/
def scoredNewsList (l : List News) (interests : List String)
    (weights : List (String × ℚ)) (now : ℚ) : List Scored :=
  l.filterMap fun n =>
    let sc := personalizedScore n interests weights now
    if sc > 1/10 then some ⟨n, roundQ 3 sc⟩ else none

/-! ## Caching operations -/

/-- `get_cached_news_data`. -/
def getCachedNewsData (t : ℚ) (apiNews mockNews : List News) (s : EngineState) :
    List News × EngineState :=
  let hit : Option (List News) :=
    match getA "news_data_all" s.newsCache with
    | some e => if cacheValid e newsTtl t then some e.data else none
    | none => none
  match hit with
  | some d =>
    (d, { s with stats := { s.stats with newsHits := s.stats.newsHits + 1 } })
  | none =>
    let newsData := if apiNews.isEmpty then mockNews else apiNews
    (newsData,
     { s with
       stats := { s.stats with newsMisses := s.stats.newsMisses + 1 },
       newsCache := setCache "news_data_all" newsData t s.newsCache })

/-- Python `set(xs) == set(ys)`: mutual containment of the two ID lists. -/
def sameIdSet (a b : List String) : Bool :=
  a.all (fun x => decide (x ∈ b)) && b.all (fun x => decide (x ∈ a))

/-- The item-ID list of a cached scored list / of the current candidates. -/
def idsOfScored (l : List Scored) : List String :=
  l.map fun x => x.item.id

def idsOfNews (l : List News) : List String :=
  l.map fun n => n.id

/-- `get_cached_personalized_scores`: key hit requires TTL validity and
that the cached item-ID set equal the current candidate-ID set; otherwise
the scores are recomputed and re-cached.  Note that no `cache_stats`
counter exists for this cache. -/
def getCachedPersonalizedScores (newsList : List News) (interests : List String)
    (weights : List (String × ℚ)) (t now : ℚ) (s : EngineState) :
    List Scored × EngineState :=
  let key : ScoreKey := (sortStrings interests, canonWeights weights)
  let hit : Option (List Scored) :=
    match getA key s.scoreCache with
    | some e =>
      if cacheValid e scoreTtl t then
        if sameIdSet (idsOfScored e.data) (idsOfNews newsList) then some e.data
        else none
      else none
    | none => none
  match hit with
  | some cached => (cached, s)
  | none =>
    let scored := scoredNewsList newsList interests weights now
    (scored, { s with scoreCache := setCache key scored t s.scoreCache })

/-! ## Diversity selection -/

/-- Group a list by category in first-appearance order (the
`category_groups` dict pattern of `_select_balanced_news` and
`_interleave_recommendations`). -/
def addToGroups : List (String × List Scored) → String → Scored →
    List (String × List Scored)
  | [], c, n => [(c, [n])]
  | (c', g) :: rest, c, n =>
    if c = c' then (c', g ++ [n]) :: rest else (c', g) :: addToGroups rest c n

def groupByCat (l : List Scored) : List (String × List Scored) :=
  l.foldl (fun acc n => addToGroups acc n.item.category n) []

/-- Stable descending sort by personalized score. -/
def sortByScoreDesc (l : List Scored) : List Scored :=
  List.insertionSort (fun a b : Scored => b.score ≤ a.score) l

/-- `_select_balanced_news`. -/
def selectBalancedNews (l : List Scored) (interests : List String) (slots : ℕ) :
    List Scored :=
  if l = [] ∨ interests = [] ∨ slots = 0 then []
  else
    let groups := groupByCat l
    let per := max 1 (slots / interests.length)
    let balanced :=
      interests.foldl
        (fun acc c =>
          match getA c groups with
          | some g => acc ++ (sortByScoreDesc g).take per
          | none => acc)
        []
    if balanced.length < slots then
      let remaining := l.filter fun n => decide (n ∉ balanced)
      balanced ++ (sortByScoreDesc remaining).take (slots - balanced.length)
    else balanced

/-- One round of the interleave loop: the head of every nonempty group in
order. -/
def rrHeads (gs : List (List Scored)) : List Scored :=
  gs.filterMap List.head?

/-- A mapped list sum does not increase when no element increases. -/
theorem sum_map_le_sum_map {α : Type} (gs : List α) (f g : α → ℕ)
    (h1 : ∀ x ∈ gs, g x ≤ f x) : (gs.map g).sum ≤ (gs.map f).sum := by
  induction gs with
  | nil => simp
  | cons a l ih =>
    simp only [List.map_cons, List.sum_cons]
    have ha := h1 a (List.mem_cons_self a l)
    have := ih fun x hx => h1 x (List.mem_cons_of_mem a hx)
    omega

/-- A mapped list sum strictly decreases when no element increases and one
strictly decreases. -/
theorem sum_map_lt_sum_map {α : Type} (gs : List α) (f g : α → ℕ)
    (h1 : ∀ x ∈ gs, g x ≤ f x) (x0 : α) (hx0 : x0 ∈ gs) (h2 : g x0 < f x0) :
    (gs.map g).sum < (gs.map f).sum := by
  induction gs with
  | nil => cases hx0
  | cons a l ih =>
    simp only [List.map_cons, List.sum_cons]
    rcases List.mem_cons.mp hx0 with h | h
    · subst h
      have hrest := sum_map_le_sum_map l f g
        fun x hx => h1 x (List.mem_cons_of_mem x0 hx)
      omega
    · have ha := h1 a (List.mem_cons_self a l)
      have := ih (fun x hx => h1 x (List.mem_cons_of_mem a hx)) h
      omega

/-- The while-loop of `_interleave_recommendations`: emit one item per
category per pass until every group is exhausted. -/
def roundRobin (gs : List (List Scored)) : List Scored :=
  if gs.all List.isEmpty then []
  else
    rrHeads gs ++ roundRobin (gs.map (List.drop 1))
termination_by (gs.map List.length).sum
decreasing_by
  rename_i h
  simp only [List.all_eq_true, List.isEmpty_iff] at h
  push_neg at h
  obtain ⟨g, hg, hne⟩ := h
  have h2 : (List.drop 1 g).length < g.length := by
    cases g with
    | nil => exact absurd rfl hne
    | cons a l => simp
  have key := sum_map_lt_sum_map gs List.length (fun x => (List.drop 1 x).length)
    (fun x _ => by simp only [List.length_drop]; omega) g hg h2
  rw [List.map_map]
  convert key using 2

/-- `_interleave_recommendations`. -/
def interleaveRecs (recs : List Scored) : List Scored :=
  if recs.length ≤ 3 then recs
  else
    let groups := groupByCat recs
    if groups.length ≤ 1 then recs
    else roundRobin (groups.map Prod.snd)

/-- `_apply_diversity_control`. -/
def applyDiversityControl (scored : List Scored) (interests : List String)
    (limit : ℕ) : List Scored :=
  if scored = [] ∨ limit = 0 then []
  else
    let uiSlots := limit * 7 / 10
    let relSlots := limit * 2 / 10
    let expSlots := limit - uiSlots - relSlots
    let ui := scored.filter fun x => decide (x.item.category ∈ interests)
    let rel := scored.filter fun x =>
      decide (x.item.category ∉ interests) && isAnyRelated x.item.category interests
    let ex := scored.filter fun x =>
      decide (x.item.category ∉ interests) && !(isAnyRelated x.item.category interests)
    let dr0 := selectBalancedNews ui interests uiSlots
    let dr1 := dr0 ++ (if rel ≠ [] ∧ relSlots > 0 then rel.take relSlots else [])
    let exSorted := List.insertionSort
      (fun a b : Scored => b.item.hotScore ≤ a.item.hotScore) ex
    let dr2 := dr1 ++ (if ex ≠ [] ∧ expSlots > 0 then exSorted.take expSlots else [])
    let dr3 :=
      if dr2.length < limit then
        dr2 ++ (scored.filter fun n => decide (n ∉ dr2)).take (limit - dr2.length)
      else dr2
    (interleaveRecs dr3).take limit

/-- `recommend_for_user`. -/
def recommendForUser (interests : List String) (weights : List (String × ℚ))
    (limit : ℕ) (t now : ℚ) (apiNews mockNews : List News) (s : EngineState) :
    List Scored × EngineState :=
  let s0 := { s with stats := { s.stats with totalRequests := s.stats.totalRequests + 1 } }
  let key : RecKey := (sortStrings interests, canonWeights weights, limit)
  let hit : Option (List Scored) :=
    match getA key s0.recCache with
    | some e => if cacheValid e recommendationTtl t then some e.data else none
    | none => none
  match hit with
  | some cached =>
    (cached, { s0 with stats := { s0.stats with recHits := s0.stats.recHits + 1 } })
  | none =>
    let s1 := { s0 with stats := { s0.stats with recMisses := s0.stats.recMisses + 1 } }
    let fetched := getCachedNewsData t apiNews mockNews s1
    let scoredRes := getCachedPersonalizedScores fetched.1 interests weights t now fetched.2
    let sortedScored := sortByScoreDesc scoredRes.1
    let diverse := applyDiversityControl sortedScored interests limit
    (diverse, { scoredRes.2 with recCache := setCache key diverse t scoredRes.2.recCache })

/-! ## Association-list lemmas -/

theorem getA_setA_same {κ β : Type} [DecidableEq κ] (k : κ) (v : β)
    (m : List (κ × β)) : getA k (setA k v m) = some v := by
  induction m with
  | nil => simp [getA, setA]
  | cons p rest ih =>
    by_cases h : k = p.1
    · simp [getA, setA, h]
    · simp [getA, setA, h, ih]

theorem getA_setA_ne {κ β : Type} [DecidableEq κ] (k k' : κ) (v : β)
    (m : List (κ × β)) (h : k ≠ k') : getA k (setA k' v m) = getA k m := by
  induction m with
  | nil => simp [getA, setA, h]
  | cons p rest ih =>
    by_cases h1 : k' = p.1
    · subst h1
      simp [getA, setA, h]
    · by_cases h2 : k = p.1
      · simp [getA, setA, h1, h2]
      · simp [getA, setA, h1, h2, ih]

/-! ## C2 and C3: the engagement floor -/

/-- A concrete `dislike` event: scroll 50 (no multiplier), 3 a.m. (no
hour multiplier), so the raw weighted score is `-0.12`. -/
def c2DislikeEvt : EventIn :=
  ⟨⟨"u1", "dislike", "n1", "ai_ml", "", 0, 50, 3⟩, 3, 1, true⟩

/-- C2: contrary to the spec, `_calculate_enhanced_engagement` floors every
engagement score at `+0.001` (`max(0.001, base_score)`), so no event — in
particular no `dislike`/`skip`/`report`/`block_category` event — can ever
produce a negative engagement score; the concrete dislike event evaluates
to exactly `0.001`. -/
theorem c2_engagement_floor :
    (∀ (e : BEvent) (a : String), (1/1000 : ℚ) ≤ calcEnhancedEngagement e a) ∧
    calcEnhancedEngagement c2DislikeEvt.ev
      (smartActionAdjustment c2DislikeEvt.ev) = 1/1000 := by
  constructor
  · intro e a
    exact le_max_left _ _
  · decide

/-- C3: on a fresh user (uniform vector, `ai_ml = 0.125 > min_weight`), a
`dislike` event on `ai_ml` strictly *increases* that weight (to
`7823/62500 = 0.125168`) instead of decreasing it, because the floored
engagement score `0.001` yields a positive adjustment. -/
theorem c3_dislike_does_not_decrease :
    getW (prefsView initState "u1") Cat.aiMl = 1/8 ∧
    minWeight < getW (prefsView initState "u1") Cat.aiMl ∧
    (trackBehavior false c2DislikeEvt initState).1.success = true ∧
    getW (prefsView (trackBehavior false c2DislikeEvt initState).2 "u1") Cat.aiMl
      = 7823/62500 ∧
    getW (prefsView initState "u1") Cat.aiMl
      < getW (prefsView (trackBehavior false c2DislikeEvt initState).2 "u1") Cat.aiMl := by
  refine ⟨by decide, by decide, by decide, by decide, by decide⟩

/-! ## C5: unknown category -/

/-- A behavior event whose category is outside the fixed 8-category set. -/
def c5UnknownEvt : EventIn :=
  ⟨⟨"u1", "like", "n1", "sports", "", 0, 0, 3⟩, 3, 1, true⟩

/-- C5 counterexample: an unknown-category event is *not* rejected before
state changes: the call reports `success = True`, the event is stored in the
user's behavior history, and the behavior counter increments. -/
theorem c5_unknown_category_not_rejected :
    parseCat "sports" = none ∧
    (trackBehavior false c5UnknownEvt initState).1.success = true ∧
    (getA "u1" (trackBehavior false c5UnknownEvt initState).2.behaviors).getD []
      = [⟨"like", 3⟩] ∧
    (trackBehavior false c5UnknownEvt initState).2.stats.totalBehaviors
      = initState.stats.totalBehaviors + 1 := by
  refine ⟨by decide, by decide, by decide, by decide⟩

/-- `storeBehaviorInCache` only touches the behavior table. -/
theorem storeBehaviorInCache_prefs (uid : String) (b : StoredBehavior)
    (s : BSysState) : (storeBehaviorInCache uid b s).prefs = s.prefs := rfl

theorem storeBehaviorInCache_stats (uid : String) (b : StoredBehavior)
    (s : BSysState) : (storeBehaviorInCache uid b s).stats = s.stats := rfl

/-- The updated behavior list after `_store_behavior_in_cache`. -/
theorem getA_storeBehaviorInCache (uid : String) (b : StoredBehavior)
    (s : BSysState) :
    getA uid (storeBehaviorInCache uid b s).behaviors =
      some (if ((getA uid s.behaviors).getD [] ++ [b]).length > 100 then
              ((getA uid s.behaviors).getD [] ++ [b]).drop
                (((getA uid s.behaviors).getD [] ++ [b]).length - 100)
            else (getA uid s.behaviors).getD [] ++ [b]) := by
  unfold storeBehaviorInCache
  simp [getA_setA_same]

/-- `cleanupOldData` only touches the behavior table. -/
theorem cleanupOldData_prefs (uid : String) (now : ℚ) (s : BSysState) :
    (cleanupOldData uid now s).prefs = s.prefs := by
  unfold cleanupOldData
  cases getA uid s.behaviors <;> rfl

theorem cleanupOldData_stats (uid : String) (now : ℚ) (s : BSysState) :
    (cleanupOldData uid now s).stats = s.stats := by
  unfold cleanupOldData
  cases getA uid s.behaviors <;> rfl

/-- The behavior list after `_cleanup_old_data`. -/
theorem getA_cleanupOldData (uid : String) (now : ℚ) (s : BSysState) :
    getA uid (cleanupOldData uid now s).behaviors =
      (getA uid s.behaviors).map
        (List.filter fun b => decide (b.ts > now - maxDaysHours)) := by
  unfold cleanupOldData
  cases h : getA uid s.behaviors with
  | none => simp [h]
  | some l => simp [h, getA_setA_same]

/-- `updateStatistics` only touches the counters. -/
theorem updateStatistics_prefs (uid : String) (s : BSysState) :
    (updateStatistics uid s).prefs = s.prefs := by
  unfold updateStatistics
  dsimp only
  split <;> rfl

theorem updateStatistics_behaviors (uid : String) (s : BSysState) :
    (updateStatistics uid s).behaviors = s.behaviors := by
  unfold updateStatistics
  dsimp only
  split <;> rfl

theorem updateStatistics_totalBehaviors (uid : String) (s : BSysState) :
    (updateStatistics uid s).stats.totalBehaviors
      = s.stats.totalBehaviors + 1 := by
  unfold updateStatistics
  dsimp only
  split <;> rfl

/-- Unfolding of `track_behavior` for an accepted (non-test-mode, saved)
event. -/
theorem trackBehavior_accept (inp : EventIn) (s : BSysState)
    (hdb : inp.dbSaveOk = true) :
    trackBehavior false inp s =
      (let e := inp.ev
       let enhanced := smartActionAdjustment e
       let eng := calcEnhancedEngagement e enhanced
       let s2 := storeBehaviorInCache e.userId ⟨enhanced, e.ts⟩ s
       let upd := intelligentPreferenceUpdate e.userId e.category enhanced eng inp.tw s2
       let s4 := cleanupOldData e.userId inp.now upd.2
       let s5 := updateStatistics e.userId s4
       (⟨true, none, none, some enhanced, some eng, some upd.1,
         some (calcUserConfidence (getA e.userId s5.behaviors))⟩, s5)) := by
  unfold trackBehavior detectAnomalyLight
  simp [hdb]

/-- Unfolding of `_intelligent_preference_update` at an unknown category:
the user's preference entry is created (with its current-or-uniform value)
and the error dictionary is returned with no weight change. -/
theorem intelligentPreferenceUpdate_unknown (uid category action : String)
    (eng tw : ℚ) (s : BSysState) (hcat : parseCat category = none) :
    intelligentPreferenceUpdate uid category action eng tw s =
      (.unknownCategory category,
       { s with prefs := setA uid ((getA uid s.prefs).getD uniformVec) s.prefs }) := by
  unfold intelligentPreferenceUpdate
  simp [hcat]

/-- C5 (amended): an unknown-category event leaves every user's observable
preference vector unchanged and reports the unknown category inside the
`learning_update` field, but the event is stored in the history, the
behavior counter increments, and the overall call reports success. -/
theorem c5_unknown_category_behavior (s : BSysState) (inp : EventIn)
    (hcat : parseCat inp.ev.category = none)
    (hdb : inp.dbSaveOk = true)
    (hts : inp.ev.ts > inp.now - maxDaysHours) :
    (trackBehavior false inp s).1.success = true ∧
    (trackBehavior false inp s).1.learning
      = some (.unknownCategory inp.ev.category) ∧
    (∀ u, prefsView (trackBehavior false inp s).2 u = prefsView s u) ∧
    (⟨smartActionAdjustment inp.ev, inp.ev.ts⟩ : StoredBehavior)
      ∈ (getA inp.ev.userId (trackBehavior false inp s).2.behaviors).getD [] ∧
    (trackBehavior false inp s).2.stats.totalBehaviors
      = s.stats.totalBehaviors + 1 := by
  rw [trackBehavior_accept inp s hdb]
  simp only [intelligentPreferenceUpdate_unknown inp.ev.userId inp.ev.category
    (smartActionAdjustment inp.ev) (calcEnhancedEngagement inp.ev
      (smartActionAdjustment inp.ev)) inp.tw _ hcat]
  set uid := inp.ev.userId with huid
  set b : StoredBehavior := ⟨smartActionAdjustment inp.ev, inp.ev.ts⟩ with hb
  set s2 := storeBehaviorInCache uid b s with hs2
  set s3 : BSysState :=
    { s2 with prefs := setA uid ((getA uid s2.prefs).getD uniformVec) s2.prefs }
    with hs3
  refine ⟨trivial, trivial, ?_, ?_, ?_⟩
  · intro u
    unfold prefsView
    rw [updateStatistics_prefs, cleanupOldData_prefs]
    have hp3 : s3.prefs = setA uid ((getA uid s.prefs).getD uniformVec) s.prefs := by
      rw [hs3]
      simp [hs2, storeBehaviorInCache_prefs]
    rw [hp3]
    by_cases hu : u = uid
    · subst hu
      rw [getA_setA_same]
      rfl
    · rw [getA_setA_ne _ _ _ _ hu]
  · rw [updateStatistics_behaviors, getA_cleanupOldData]
    have h3 : getA uid s3.behaviors = getA uid s2.behaviors := rfl
    rw [h3, hs2, getA_storeBehaviorInCache]
    have hmem2 : b ∈ (if ((getA uid s.behaviors).getD [] ++ [b]).length > 100 then
        ((getA uid s.behaviors).getD [] ++ [b]).drop
          (((getA uid s.behaviors).getD [] ++ [b]).length - 100)
      else (getA uid s.behaviors).getD [] ++ [b]) := by
      split
      · have hk : ((getA uid s.behaviors).getD [] ++ [b]).length - 100
            ≤ ((getA uid s.behaviors).getD []).length := by
          simp only [List.length_append, List.length_cons, List.length_nil]
          omega
        rw [List.drop_append_of_le_length hk]
        simp
      · simp
    simp only [Option.map_some', Option.getD_some, List.mem_filter]
    exact ⟨hmem2, by simpa [hb] using hts⟩
  · rw [updateStatistics_totalBehaviors, cleanupOldData_stats]
    have h3 : s3.stats = s.stats := by
      rw [hs3]
      simp [hs2, storeBehaviorInCache_stats]
    rw [h3]

/-- C5 witness: the amended statement instantiated at the concrete
unknown-category event on the fresh state. -/
theorem c5_unknown_category_behavior_witness :
    parseCat "sports" = none ∧
    (∀ u, prefsView (trackBehavior false c5UnknownEvt initState).2 u = prefsView initState u) := by
  refine ⟨by decide, ?_⟩
  exact (c5_unknown_category_behavior initState c5UnknownEvt (by decide) (by decide)
    (by norm_num [c5UnknownEvt, maxDaysHours])).2.2.1

/-! ## C9: keyword-overlap component -/

/-- The keyword component as the specification words it: fraction of the
interest categories' keyword vocabulary found case-insensitively in the
item text, a title match counting twice a summary-only match, capped at
1.0. -/
def specKeywordScoreTitle2x (n : News) (interests : List String) : ℚ :=
  let title := lowerStr n.title
  let summary := lowerStr n.summary
  let kws := interests.flatMap fun c => (interestKeywords c).map lowerStr
  if kws = [] then 0
  else
    let points := (kws.map fun k =>
      if strHasSub title k then (2 : ℚ)
      else if strHasSub summary k then 1
      else 0).sum
    min (points / kws.length) 1

/-- The keyword component without any title weighting: the fraction of the
(concatenated, with multiplicity) interest-category vocabulary occurring
case-insensitively as a substring of title+summary, capped at 1.0. -/
def specKeywordFraction (n : News) (interests : List String) : ℚ :=
  let text := lowerStr (n.title ++ " " ++ n.summary)
  let kws := interests.flatMap fun c => (interestKeywords c).map lowerStr
  if kws = [] then 0
  else min ((kws.countP fun k => strHasSub text k : ℚ) / kws.length) 1

/-- A news item with a keyword occurrence in the title only. -/
def c9News : News := ⟨"n1", "GPT-5 模型", "", "ai_ml", 1/2, none⟩

/-- C9 counterexample: `_calculate_keyword_score` does not weight title
matches 2×; on an item whose only keyword match ("GPT") is in the title it
returns `1/10`, while the spec's title-weighted formula gives `2/10`. -/
theorem c9_no_title_weighting :
    calcKeywordScore c9News ["ai_ml"] = 1/10 ∧
    specKeywordScoreTitle2x c9News ["ai_ml"] = 2/10 ∧
    calcKeywordScore c9News ["ai_ml"] ≠ specKeywordScoreTitle2x c9News ["ai_ml"] := by
  refine ⟨by decide, by decide, by decide⟩

/-- C9 (amended): the keyword component equals the fraction of the interest
categories' keyword vocabulary found case-insensitively as substrings of
the item's title+summary text, capped at 1.0, with *no* extra weight for
title matches. -/
theorem c9_keyword_score_fraction (n : News) (interests : List String) :
    calcKeywordScore n interests = specKeywordFraction n interests := by
  unfold calcKeywordScore specKeywordFraction
  simp only [List.countP_eq_length_filter]

/-! ## C10: totality of `track_behavior` -/

/-- C10: `track_behavior` is total at its interface: every call returns a
result with a definite `success` flag; `success = false` always comes with
an error message, `success = true` never does, and an external
database-save failure on a non-anomalous event is reported as
`success = false` with the database error message rather than an
exception. -/
theorem c10_track_total (tm : Bool) (inp : EventIn) (s : BSysState) :
    (((trackBehavior tm inp s).1.success = true ∧
        (trackBehavior tm inp s).1.errMsg = none) ∨
      ((trackBehavior tm inp s).1.success = false ∧
        ((trackBehavior tm inp s).1.errMsg).isSome = true)) ∧
    ((detectAnomalyLight tm inp.ev s).1 = false → inp.dbSaveOk = false →
      (trackBehavior tm inp s).1.errMsg = some "数据库保存失败") := by
  constructor
  · cases hdet : (detectAnomalyLight tm inp.ev s).1
    · cases hdb : inp.dbSaveOk
      · right
        unfold trackBehavior
        simp [hdet, hdb]
      · left
        unfold trackBehavior
        simp [hdet, hdb]
    · right
      unfold trackBehavior
      simp [hdet]
  · intro hdet hdb
    unfold trackBehavior
    simp [hdet, hdb]

/-- C10 witness: a database-save failure on a concrete event reports
`success = false` with the database error message. -/
theorem c10_track_total_witness :
    (detectAnomalyLight false c5UnknownEvt.ev initState).1 = false ∧
    ((trackBehavior false ⟨c5UnknownEvt.ev, 3, 1, false⟩ initState).1.errMsg
      = some "数据库保存失败") := by
  refine ⟨by decide, ?_⟩
  exact (c10_track_total false ⟨c5UnknownEvt.ev, 3, 1, false⟩ initState).2
    (by decide) (by decide)

/-! ## C6: stale score cache -/

/-- C6 (amended): on a score-cache key hit whose stored item-ID set differs
from the current candidate-ID set, the cached result is discarded and the
scores are recomputed from the current candidates and re-cached — but *no*
cache-statistics counter changes (the engine's `cache_stats` has no
score-cache counters at all). -/
theorem c6_stale_score_cache_recomputes (newsList : List News)
    (interests : List String) (weights : List (String × ℚ)) (t now : ℚ)
    (s : EngineState) (e : CacheEntry (List Scored))
    (hget : getA (sortStrings interests, canonWeights weights) s.scoreCache = some e)
    (hvalid : cacheValid e scoreTtl t = true)
    (hids : sameIdSet (idsOfScored e.data) (idsOfNews newsList) = false) :
    (getCachedPersonalizedScores newsList interests weights t now s).1
      = scoredNewsList newsList interests weights now ∧
    (getCachedPersonalizedScores newsList interests weights t now s).2.stats
      = s.stats ∧
    (getCachedPersonalizedScores newsList interests weights t now s).2.scoreCache
      = setCache (sortStrings interests, canonWeights weights)
          (scoredNewsList newsList interests weights now) t s.scoreCache := by
  unfold getCachedPersonalizedScores
  simp [hget, hvalid, hids]

/-- A stale cached scoring for the score-cache key of user interests
`["ai_ml"]` with weight `1/2`: it holds an item with ID `"a"`. -/
def c6StaleEntry : CacheEntry (List Scored) :=
  ⟨[⟨⟨"a", "old", "", "ai_ml", 1/2, none⟩, 1/2⟩], 0⟩

def c6Candidate : News := ⟨"b", "fresh", "", "ai_ml", 1/2, none⟩

def c6State : EngineState :=
  ⟨[], [], [((sortStrings ["ai_ml"], canonWeights [("ai_ml", 1/2)]), c6StaleEntry)],
   ⟨0, 0, 0, 0, 0⟩⟩

/-- C6 counterexample: on the concrete stale hit (cached IDs `{a}`, current
IDs `{b}`, within TTL) the result is recomputed from the current candidate
— not the stale list — yet every `cache_stats` counter is unchanged, so no
cache-miss counter is incremented. -/
theorem c6_no_miss_counter :
    (getCachedPersonalizedScores [c6Candidate] ["ai_ml"] [("ai_ml", 1/2)] 1 0
        c6State).1
      = scoredNewsList [c6Candidate] ["ai_ml"] [("ai_ml", 1/2)] 0 ∧
    (getCachedPersonalizedScores [c6Candidate] ["ai_ml"] [("ai_ml", 1/2)] 1 0
        c6State).1 ≠ c6StaleEntry.data ∧
    (getCachedPersonalizedScores [c6Candidate] ["ai_ml"] [("ai_ml", 1/2)] 1 0
        c6State).2.stats = c6State.stats := by
  refine ⟨by decide, by decide, by decide⟩

/-- C6 witness: the amended statement instantiated at the concrete stale
score-cache state. -/
theorem c6_stale_score_cache_recomputes_witness :
    getA (sortStrings ["ai_ml"], canonWeights [("ai_ml", 1/2)]) c6State.scoreCache
      = some c6StaleEntry ∧
    (getCachedPersonalizedScores [c6Candidate] ["ai_ml"] [("ai_ml", 1/2)] 1 0
        c6State).2.stats = c6State.stats := by
  refine ⟨by decide, ?_⟩
  exact (c6_stale_score_cache_recomputes [c6Candidate] ["ai_ml"] [("ai_ml", 1/2)]
    1 0 c6State c6StaleEntry (by decide) (by decide) (by decide)).2.1

/-! ## C4: the anomaly guard -/

/-- Unfolding of `track_behavior` for a non-anomalous saved event in any
mode. -/
theorem trackBehavior_accepted (tm : Bool) (inp : EventIn) (s : BSysState)
    (hdet : (detectAnomalyLight tm inp.ev s).1 = false)
    (hdb : inp.dbSaveOk = true) :
    trackBehavior tm inp s =
      (let e := inp.ev
       let s1 := (detectAnomalyLight tm e s).2
       let enhanced := smartActionAdjustment e
       let eng := calcEnhancedEngagement e enhanced
       let s2 := storeBehaviorInCache e.userId ⟨enhanced, e.ts⟩ s1
       let upd := intelligentPreferenceUpdate e.userId e.category enhanced eng inp.tw s2
       let s4 := cleanupOldData e.userId inp.now upd.2
       let s5 := updateStatistics e.userId s4
       (⟨true, none, none, some enhanced, some eng, some upd.1,
         some (calcUserConfidence (getA e.userId s5.behaviors))⟩, s5)) := by
  unfold trackBehavior
  simp [hdet, hdb]

/-- Unfolding of `track_behavior` for an anomalous event. -/
theorem trackBehavior_rejected (tm : Bool) (inp : EventIn) (s : BSysState)
    (hdet : (detectAnomalyLight tm inp.ev s).1 = true) :
    trackBehavior tm inp s =
      (⟨false, some "异常行为检测", some "行为频率过高", none, none, none, none⟩,
       { (detectAnomalyLight tm inp.ev s).2 with
         stats := { (detectAnomalyLight tm inp.ev s).2.stats with
           anomaliesDetected :=
             (detectAnomalyLight tm inp.ev s).2.stats.anomaliesDetected + 1 } }) := by
  unfold trackBehavior
  simp [hdet]

/-- Filtering keeps a replicated list whose element passes the predicate. -/
theorem filter_replicate_of_pos {α : Type} (p : α → Bool) (a : α)
    (h : p a = true) (n : ℕ) :
    (List.replicate n a).filter p = List.replicate n a := by
  induction n with
  | zero => rfl
  | succ k ih => simp [List.replicate_succ, List.filter_cons, h, ih]

/-- Processing a trailing event commutes with the fold. -/
theorem foldTrack_append (tm : Bool) (l : List EventIn) (e : EventIn)
    (s : BSysState) :
    foldTrack tm (l ++ [e]) s = (trackBehavior tm e (foldTrack tm l s)).2 := by
  induction l generalizing s with
  | nil => rfl
  | cons x rest ih => simp [foldTrack, ih]

/-- The repeated same-user event of the anomaly-window run (unknown
category, so the preference vector is never touched; timestamp fixed inside
one hour window). -/
def c4Evt : EventIn := ⟨⟨"u1", "like", "n1", "sports", "", 0, 0, 3⟩, 3, 1, true⟩

/-- Its stored behavior record. -/
def c4Rec : StoredBehavior := ⟨"like", 3⟩

/-- Closed form of the system state after `n ≥ 1` copies of `c4Evt` in test
mode: the rolling anomaly counter holds `n - 1` (the first event only
initializes it), the first 1001 events are accepted and stored (history
capped at 100), and events from the 1002nd on are rejected and counted as
anomalies. -/
def c4State (n : ℕ) : BSysState :=
  ⟨[("u1", List.replicate (min (min n 1001) 100) c4Rec)],
   [("u1", uniformVec)],
   [("u1", ⟨n - 1, 3⟩)],
   ⟨min n 1001, 1, 0, n - min n 1001, 0, 0⟩⟩

theorem c4_detect (n : ℕ) (hn : 1 ≤ n) :
    detectAnomalyLight true c4Evt.ev (c4State n) =
      (decide (n > 1000),
       { c4State n with anomaly := [("u1", ⟨n, 3⟩)] }) := by
  unfold detectAnomalyLight c4State
  have h1 : getA "u1" [("u1", (⟨n - 1, 3⟩ : AnomalyRec))] = some ⟨n - 1, 3⟩ := by
    simp [getA]
  simp only [c4Evt, h1]
  have h2 : ¬ ((3 : ℚ) - 3 > 1) := by norm_num
  rw [if_neg h2]
  have h3 : n - 1 + 1 = n := by omega
  simp [setA, h3]

theorem getA_single {β : Type} (k : String) (v : β) : getA k [(k, v)] = some v := by
  simp [getA]

theorem setA_single {β : Type} (k : String) (v v' : β) :
    setA k v [(k, v')] = [(k, v)] := by
  simp [setA]

theorem c4_step (n : ℕ) (hn : 1 ≤ n) :
    (trackBehavior true c4Evt (c4State n)).2 = c4State (n + 1) := by
  by_cases hcap : n ≤ 1000
  · -- accepted
    have hdet : (detectAnomalyLight true c4Evt.ev (c4State n)).1 = false := by
      rw [c4_detect n hn]
      simp
      omega
    rw [trackBehavior_accepted true c4Evt (c4State n) hdet rfl]
    dsimp only
    rw [c4_detect n hn]
    dsimp only
    have hact : smartActionAdjustment c4Evt.ev = "like" := by decide
    have hcat : parseCat c4Evt.ev.category = none := by decide
    rw [hact, intelligentPreferenceUpdate_unknown _ _ _ _ _ _ hcat]
    dsimp only
    have hm : min (min n 1001) 100 = min n 100 := by omega
    have htrim : (if ((List.replicate (min n 100) c4Rec) ++ [c4Rec]).length > 100 then
        ((List.replicate (min n 100) c4Rec) ++ [c4Rec]).drop
          (((List.replicate (min n 100) c4Rec) ++ [c4Rec]).length - 100)
      else (List.replicate (min n 100) c4Rec) ++ [c4Rec])
        = List.replicate (min (n + 1) 100) c4Rec := by
      rw [← List.replicate_succ' (min n 100) c4Rec]
      have hlen : (List.replicate (min n 100 + 1) c4Rec).length = min n 100 + 1 := by
        simp
      rw [hlen]
      by_cases hsmall : n < 100
      · have htake : ¬ (min n 100 + 1 > 100) := by omega
        rw [if_neg htake]
        have h : min n 100 + 1 = min (n + 1) 100 := by omega
        rw [h]
      · have htake : min n 100 + 1 > 100 := by omega
        rw [if_pos htake]
        rw [List.drop_replicate]
        have h : min n 100 + 1 - (min n 100 + 1 - 100) = min (n + 1) 100 := by omega
        rw [h]
    have hstore : storeBehaviorInCache c4Evt.ev.userId ⟨"like", c4Evt.ev.ts⟩
        { c4State n with anomaly := [("u1", ⟨n, 3⟩)] } =
        { c4State n with
          anomaly := [("u1", ⟨n, 3⟩)],
          behaviors := [("u1", List.replicate (min (n + 1) 100) c4Rec)] } := by
      unfold storeBehaviorInCache c4State
      dsimp only [c4Evt]
      rw [getA_single, Option.getD_some, setA_single, hm]
      rw [show (⟨"like", (3 : ℚ)⟩ : StoredBehavior) = c4Rec from rfl]
      rw [htrim]
    rw [hstore]
    dsimp only [c4Evt]
    have hpp : (c4State n).prefs = [("u1", uniformVec)] := rfl
    have hss : (c4State n).stats =
        (⟨min n 1001, 1, 0, n - min n 1001, 0, 0⟩ : SysStats) := rfl
    rw [hpp, hss, getA_single, Option.getD_some, setA_single]
    have hclean : cleanupOldData "u1" (3 : ℚ)
        (⟨[("u1", List.replicate (min (n + 1) 100) c4Rec)], [("u1", uniformVec)],
          [("u1", ⟨n, 3⟩)], ⟨min n 1001, 1, 0, n - min n 1001, 0, 0⟩⟩ : BSysState) =
        ⟨[("u1", List.replicate (min (n + 1) 100) c4Rec)], [("u1", uniformVec)],
          [("u1", ⟨n, 3⟩)], ⟨min n 1001, 1, 0, n - min n 1001, 0, 0⟩⟩ := by
      unfold cleanupOldData
      dsimp only
      rw [getA_single]
      dsimp only
      rw [filter_replicate_of_pos _ c4Rec (by decide), setA_single]
    rw [hclean]
    unfold updateStatistics
    dsimp only [c4Evt]
    rw [if_neg]
    · unfold c4State
      simp only [BSysState.mk.injEq, List.cons.injEq, Prod.mk.injEq,
        AnomalyRec.mk.injEq, SysStats.mk.injEq, true_and, and_true]
      repeat' apply And.intro
      all_goals
        first
          | rfl
          | omega
          | (congr 1; omega)
    · dsimp only
      rw [getA_single]
      simp only [Option.getD_some, List.length_replicate]
      push_neg
      constructor
      · intro h
        cases h
      · omega
  · -- rejected
    have hdet : (detectAnomalyLight true c4Evt.ev (c4State n)).1 = true := by
      rw [c4_detect n hn]
      simp
      omega
    rw [trackBehavior_rejected true c4Evt (c4State n) hdet]
    rw [c4_detect n hn]
    unfold c4State
    dsimp only
    simp only [BSysState.mk.injEq, List.cons.injEq, Prod.mk.injEq,
      AnomalyRec.mk.injEq, SysStats.mk.injEq, true_and, and_true]
    repeat' apply And.intro
    all_goals
      first
        | rfl
        | omega
        | (congr 1; omega)

theorem c4_success (n : ℕ) (hn : 1 ≤ n) (hcap : n ≤ 1000) :
    (trackBehavior true c4Evt (c4State n)).1.success = true := by
  have hdet : (detectAnomalyLight true c4Evt.ev (c4State n)).1 = false := by
    rw [c4_detect n hn]
    simp
    omega
  rw [trackBehavior_accepted true c4Evt (c4State n) hdet rfl]

theorem c4_reject (n : ℕ) (hn : 1001 ≤ n) :
    (trackBehavior true c4Evt (c4State n)).1 =
      ⟨false, some "异常行为检测", some "行为频率过高", none, none, none, none⟩ := by
  have hdet : (detectAnomalyLight true c4Evt.ev (c4State n)).1 = true := by
    rw [c4_detect n (by omega)]
    simp
    omega
  rw [trackBehavior_rejected true c4Evt (c4State n) hdet]

/-- The closed form is reached. -/
theorem c4_reach (n : ℕ) :
    foldTrack true (List.replicate (n + 1) c4Evt) initState = c4State (n + 1) := by
  induction n with
  | zero =>
    show (trackBehavior true c4Evt initState).2 = c4State 1
    decide
  | succ k ih =>
    rw [List.replicate_succ' (k + 1) c4Evt, foldTrack_append, ih]
    exact c4_step (k + 1) (by omega)

/-- C4 counterexample: after 1,000 identical events inside the one-hour
window (test mode), the 1,001st tracked event is still *accepted*
(`success = True`) — the code counts from the second event and rejects only
above 1,000. -/
theorem c4_1001st_event_accepted :
    (trackBehavior true c4Evt
      (foldTrack true (List.replicate 1000 c4Evt) initState)).1.success = true := by
  have h : (1000 : ℕ) = 999 + 1 := rfl
  rw [h, c4_reach 999]
  exact c4_success 1000 (by omega) (by omega)

/-- C4 (amended): in test mode, the 1,002nd identical event of a user
inside the one-hour window is the first to be rejected with the anomaly
error (`success = False`), and the rejected event changes neither the
user's preference vector nor the stored behavior history. -/
theorem c4_1002nd_event_rejected :
    (trackBehavior true c4Evt
        (foldTrack true (List.replicate 1001 c4Evt) initState)).1 =
      ⟨false, some "异常行为检测", some "行为频率过高", none, none, none, none⟩ ∧
    prefsView (trackBehavior true c4Evt
        (foldTrack true (List.replicate 1001 c4Evt) initState)).2 "u1" =
      prefsView (foldTrack true (List.replicate 1001 c4Evt) initState) "u1" ∧
    (trackBehavior true c4Evt
        (foldTrack true (List.replicate 1001 c4Evt) initState)).2.behaviors =
      (foldTrack true (List.replicate 1001 c4Evt) initState).behaviors := by
  have h : (1001 : ℕ) = 1000 + 1 := rfl
  rw [h, c4_reach 1000]
  refine ⟨c4_reject 1001 (by omega), ?_, ?_⟩
  · rw [c4_step 1001 (by omega)]
    rfl
  · rw [c4_step 1001 (by omega)]
    rfl

/-! ## C7: the recommendation cache -/

theorem mem_keys_setA {κ β : Type} [DecidableEq κ] {x k : κ} {v : β}
    {m : List (κ × β)} (h : x ∈ (setA k v m).map Prod.fst) :
    x ∈ m.map Prod.fst ∨ x = k := by
  induction m with
  | nil =>
    simp [setA] at h
    right
    exact h
  | cons p rest ih =>
    by_cases hk : k = p.1
    · rw [setA, if_pos hk] at h
      simp only [List.map_cons, List.mem_cons] at h ⊢
      rcases h with h | h
      · right
        rw [h, hk]
      · left
        right
        exact h
    · rw [setA, if_neg hk] at h
      simp only [List.map_cons, List.mem_cons] at h ⊢
      rcases h with h | h
      · left
        left
        exact h
      · rcases ih h with h1 | h1
        · left
          right
          exact h1
        · right
          exact h1

theorem nodup_keys_setA {κ β : Type} [DecidableEq κ] (k : κ) (v : β)
    (m : List (κ × β)) (hnd : (m.map Prod.fst).Nodup) :
    ((setA k v m).map Prod.fst).Nodup := by
  induction m with
  | nil => simp [setA]
  | cons p rest ih =>
    simp only [List.map_cons, List.nodup_cons] at hnd
    by_cases hk : k = p.1
    · rw [setA, if_pos hk]
      simp only [List.map_cons, List.nodup_cons]
      exact ⟨hk ▸ hnd.1, hnd.2⟩
    · rw [setA, if_neg hk]
      simp only [List.map_cons, List.nodup_cons]
      refine ⟨?_, ih hnd.2⟩
      intro hmem
      rcases mem_keys_setA hmem with h | h
      · exact hnd.1 h
      · exact hk h.symm

/-- Membership in a dict after assignment, for duplicate-free keys. -/
theorem mem_setA {κ β : Type} [DecidableEq κ] {p : κ × β} {k : κ} {v : β}
    {m : List (κ × β)} (hnd : (m.map Prod.fst).Nodup) (h : p ∈ setA k v m) :
    p = (k, v) ∨ (p ∈ m ∧ p.1 ≠ k) := by
  induction m with
  | nil =>
    simp [setA] at h
    left
    exact h
  | cons q rest ih =>
    simp only [List.map_cons, List.nodup_cons] at hnd
    by_cases hk : k = q.1
    · rw [setA, if_pos hk] at h
      rcases List.mem_cons.mp h with h1 | h1
      · left
        exact h1
      · right
        refine ⟨List.mem_cons_of_mem q h1, ?_⟩
        intro hpk
        apply hnd.1
        rw [← hk, ← hpk]
        exact List.mem_map_of_mem Prod.fst h1
    · rw [setA, if_neg hk] at h
      rcases List.mem_cons.mp h with h1 | h1
      · right
        refine ⟨h1 ▸ List.mem_cons_self q rest, ?_⟩
        rw [h1]
        intro hq
        exact hk hq.symm
      · rcases ih hnd.2 h1 with h2 | h2
        · left
          exact h2
        · right
          exact ⟨List.mem_cons_of_mem q h2.1, h2.2⟩

/-- Filtering with a predicate that keeps every binding of `k` preserves
the lookup of `k`. -/
theorem getA_filter_keep {κ β : Type} [DecidableEq κ] (k : κ)
    (q : κ × β → Bool) (m : List (κ × β))
    (h : ∀ p ∈ m, p.1 = k → q p = true) :
    getA k (m.filter q) = getA k m := by
  induction m with
  | nil => rfl
  | cons p rest ih =>
    have ihh := ih fun x hx => h x (List.mem_cons_of_mem p hx)
    by_cases hk : k = p.1
    · have hq : q p = true := h p (List.mem_cons_self p rest) hk.symm
      rw [List.filter_cons_of_pos hq, getA, getA, if_pos hk, if_pos hk]
    · cases hq : q p
      · rw [List.filter_cons_of_neg (by simp [hq]), getA, if_neg hk, ihh]
      · rw [List.filter_cons_of_pos hq, getA, getA, if_neg hk, if_neg hk]
        exact ihh

/-- A freshly inserted entry, strictly newer than all others, is not among
the 20 oldest entries of the sorted table (when the table holds more than
100 entries). -/
theorem fresh_entry_not_evicted {κ α : Type} [DecidableEq κ] [DecidableEq α]
    (k : κ) (v : α) (t : ℚ) (m : List (κ × CacheEntry α))
    (hnd : (m.map Prod.fst).Nodup) (hts : ∀ p ∈ m, p.2.ts < t)
    (hlen : (setA k ⟨v, t⟩ m).length > 100) :
    (k, (⟨v, t⟩ : CacheEntry α)) ∉
      (List.insertionSort entOlder (setA k ⟨v, t⟩ m)).take 20 := by
  intro hxtake
  have hperm : (List.insertionSort entOlder (setA k ⟨v, t⟩ m)).Perm
      (setA k ⟨v, t⟩ m) := List.perm_insertionSort entOlder _
  have hpair : (List.insertionSort entOlder (setA k ⟨v, t⟩ m)).Pairwise entOlder :=
    List.sorted_insertionSort entOlder _
  have hdroplen :
      0 < ((List.insertionSort entOlder (setA k ⟨v, t⟩ m)).drop 20).length := by
    rw [List.length_drop, hperm.length_eq]
    omega
  obtain ⟨b, hb⟩ := List.exists_mem_of_length_pos hdroplen
  have hble : entOlder (k, (⟨v, t⟩ : CacheEntry α)) b := by
    have hsplit := hpair
    rw [← List.take_append_drop 20
      (List.insertionSort entOlder (setA k ⟨v, t⟩ m))] at hsplit
    exact (List.pairwise_append.mp hsplit).2.2 _ hxtake b hb
  have hbm1 : b ∈ setA k ⟨v, t⟩ m :=
    hperm.mem_iff.mp (List.mem_of_mem_drop hb)
  have hbv : b = (k, (⟨v, t⟩ : CacheEntry α)) := by
    rcases mem_setA hnd hbm1 with h | h
    · exact h
    · exfalso
      have hlt := hts b h.1
      exact absurd (lt_of_le_of_lt hble hlt) (lt_irrefl t)
  have hnodup1 : (setA k ⟨v, t⟩ m).Nodup :=
    List.Nodup.of_map Prod.fst (nodup_keys_setA k ⟨v, t⟩ m hnd)
  have hnodupS : (List.insertionSort entOlder (setA k ⟨v, t⟩ m)).Nodup :=
    hperm.nodup_iff.mpr hnodup1
  rw [← List.take_append_drop 20
    (List.insertionSort entOlder (setA k ⟨v, t⟩ m))] at hnodupS
  exact (List.nodup_append.mp hnodupS).2.2 hxtake (hbv ▸ hb)

/-- A freshly inserted cache entry whose timestamp is strictly newer than
every pre-existing entry survives `_set_cache`'s oldest-20% eviction and is
found by the subsequent lookup. -/
theorem getA_setCache_fresh {κ α : Type} [DecidableEq κ] [DecidableEq α]
    (k : κ) (v : α) (t : ℚ) (m : List (κ × CacheEntry α))
    (hnd : (m.map Prod.fst).Nodup) (hts : ∀ p ∈ m, p.2.ts < t) :
    getA k (setCache k v t m) = some ⟨v, t⟩ := by
  unfold setCache
  dsimp only
  by_cases hlen : (setA k ⟨v, t⟩ m).length > 100
  · rw [if_pos hlen]
    rw [getA_filter_keep]
    · exact getA_setA_same k ⟨v, t⟩ m
    · intro p hp hpk
      simp only [decide_eq_true_eq]
      intro hmem
      have hpv : p = (k, (⟨v, t⟩ : CacheEntry α)) := by
        rcases mem_setA hnd hp with h | h
        · exact h
        · exact absurd hpk h.2
      simp only [List.mem_map] at hmem
      obtain ⟨x, hxtake, hxk⟩ := hmem
      have hxm1 : x ∈ setA k ⟨v, t⟩ m :=
        (List.perm_insertionSort entOlder _).mem_iff.mp
          (List.mem_of_mem_take hxtake)
      have hxv : x = (k, (⟨v, t⟩ : CacheEntry α)) := by
        rw [hpk] at hxk
        rcases mem_setA hnd hxm1 with h | h
        · exact h
        · exact absurd hxk h.2
      exact fresh_entry_not_evicted k v t m hnd hts hlen (hxv ▸ hxtake)
  · rw [if_neg hlen]
    exact getA_setA_same k ⟨v, t⟩ m

/-- `get_cached_news_data` never touches the recommendation cache or its
counters. -/
theorem getCachedNewsData_recCache (t : ℚ) (a b : List News) (s : EngineState) :
    (getCachedNewsData t a b s).2.recCache = s.recCache := by
  unfold getCachedNewsData
  cases hg : getA "news_data_all" s.newsCache with
  | none => simp [hg]
  | some e =>
    by_cases hv : cacheValid e newsTtl t = true <;> simp [hg, hv]

/-- `get_cached_personalized_scores` never touches the recommendation
cache. -/
theorem getCachedPersonalizedScores_recCache (nl : List News)
    (interests : List String) (weights : List (String × ℚ)) (t now : ℚ)
    (s : EngineState) :
    (getCachedPersonalizedScores nl interests weights t now s).2.recCache
      = s.recCache := by
  unfold getCachedPersonalizedScores
  cases hg : getA (sortStrings interests, canonWeights weights) s.scoreCache with
  | none => simp [hg]
  | some e =>
    by_cases hv : cacheValid e scoreTtl t = true
    · by_cases hid : sameIdSet (idsOfScored e.data) (idsOfNews nl) = true <;>
        simp [hg, hv, hid]
    · simp [hg, hv]

/-- The miss path of `recommend_for_user` (news fetch, scoring, diversity
selection, recommendation-cache insertion). -/
def recommendMissPath (interests : List String) (weights : List (String × ℚ))
    (limit : ℕ) (t now : ℚ) (apiNews mockNews : List News) (s1 : EngineState) :
    List Scored × EngineState :=
  let fetched := getCachedNewsData t apiNews mockNews s1
  let scoredRes := getCachedPersonalizedScores fetched.1 interests weights t now fetched.2
  let diverse := applyDiversityControl (sortByScoreDesc scoredRes.1) interests limit
  (diverse,
   { scoredRes.2 with
     recCache := setCache (sortStrings interests, canonWeights weights, limit)
       diverse t scoredRes.2.recCache })

/-- Unfolding of `recommend_for_user` on a recommendation-cache miss. -/
theorem recommendForUser_miss (interests : List String)
    (weights : List (String × ℚ)) (limit : ℕ) (t now : ℚ)
    (apiNews mockNews : List News) (s : EngineState)
    (hmiss : ∀ e, getA (sortStrings interests, canonWeights weights, limit)
      s.recCache = some e → cacheValid e recommendationTtl t = false) :
    recommendForUser interests weights limit t now apiNews mockNews s =
      recommendMissPath interests weights limit t now apiNews mockNews
        { s with stats := { s.stats with
            totalRequests := s.stats.totalRequests + 1,
            recMisses := s.stats.recMisses + 1 } } := by
  unfold recommendForUser recommendMissPath
  dsimp only
  cases hg : getA (sortStrings interests, canonWeights weights, limit) s.recCache with
  | none => simp [hg]
  | some e =>
    have hv := hmiss e hg
    simp [hg, hv]

/-- Unfolding of `recommend_for_user` on a valid recommendation-cache
hit. -/
theorem recommendForUser_hit (interests : List String)
    (weights : List (String × ℚ)) (limit : ℕ) (t now : ℚ)
    (apiNews mockNews : List News) (s : EngineState)
    (e : CacheEntry (List Scored))
    (hget : getA (sortStrings interests, canonWeights weights, limit)
      s.recCache = some e)
    (hvalid : cacheValid e recommendationTtl t = true) :
    recommendForUser interests weights limit t now apiNews mockNews s =
      (e.data, { s with stats := { s.stats with
         totalRequests := s.stats.totalRequests + 1,
         recHits := s.stats.recHits + 1 } }) := by
  unfold recommendForUser
  dsimp only
  simp [hget, hvalid]

/-- C7: a second `rank` call with identical interests, weights and limit,
issued within the recommendation-cache TTL of a first (missing) call whose
inserted entry is strictly newer than all previously cached entries (with
duplicate-free cache keys), returns exactly the list of the first call,
increments the recommendation cache-hit counter, and performs no second
scoring pass: the news cache, score cache, recommendation cache, and the
news-hit/news-miss/recommendation-miss counters are untouched by the
second call. -/
theorem c7_rank_cached_second_call (interests : List String)
    (weights : List (String × ℚ)) (limit : ℕ) (t1 t2 now1 now2 : ℚ)
    (api1 mock1 api2 mock2 : List News) (s0 : EngineState)
    (hnd : (s0.recCache.map Prod.fst).Nodup)
    (hold : ∀ p ∈ s0.recCache, p.2.ts < t1)
    (hmiss : ∀ e, getA (sortStrings interests, canonWeights weights, limit)
      s0.recCache = some e → cacheValid e recommendationTtl t1 = false)
    (httl : t2 - t1 < recommendationTtl) :
    (recommendForUser interests weights limit t2 now2 api2 mock2
        (recommendForUser interests weights limit t1 now1 api1 mock1 s0).2).1
      = (recommendForUser interests weights limit t1 now1 api1 mock1 s0).1 ∧
    (recommendForUser interests weights limit t2 now2 api2 mock2
        (recommendForUser interests weights limit t1 now1 api1 mock1 s0).2).2.stats.recHits
      = (recommendForUser interests weights limit t1 now1 api1 mock1 s0).2.stats.recHits + 1 ∧
    (recommendForUser interests weights limit t2 now2 api2 mock2
        (recommendForUser interests weights limit t1 now1 api1 mock1 s0).2).2.stats.recMisses
      = (recommendForUser interests weights limit t1 now1 api1 mock1 s0).2.stats.recMisses ∧
    (recommendForUser interests weights limit t2 now2 api2 mock2
        (recommendForUser interests weights limit t1 now1 api1 mock1 s0).2).2.stats.newsHits
      = (recommendForUser interests weights limit t1 now1 api1 mock1 s0).2.stats.newsHits ∧
    (recommendForUser interests weights limit t2 now2 api2 mock2
        (recommendForUser interests weights limit t1 now1 api1 mock1 s0).2).2.stats.newsMisses
      = (recommendForUser interests weights limit t1 now1 api1 mock1 s0).2.stats.newsMisses ∧
    (recommendForUser interests weights limit t2 now2 api2 mock2
        (recommendForUser interests weights limit t1 now1 api1 mock1 s0).2).2.newsCache
      = (recommendForUser interests weights limit t1 now1 api1 mock1 s0).2.newsCache ∧
    (recommendForUser interests weights limit t2 now2 api2 mock2
        (recommendForUser interests weights limit t1 now1 api1 mock1 s0).2).2.scoreCache
      = (recommendForUser interests weights limit t1 now1 api1 mock1 s0).2.scoreCache ∧
    (recommendForUser interests weights limit t2 now2 api2 mock2
        (recommendForUser interests weights limit t1 now1 api1 mock1 s0).2).2.recCache
      = (recommendForUser interests weights limit t1 now1 api1 mock1 s0).2.recCache := by
  have hrec1 : (recommendForUser interests weights limit t1 now1 api1 mock1 s0).2.recCache =
      setCache (sortStrings interests, canonWeights weights, limit)
        (recommendForUser interests weights limit t1 now1 api1 mock1 s0).1 t1
        s0.recCache := by
    rw [recommendForUser_miss interests weights limit t1 now1 api1 mock1 s0 hmiss]
    unfold recommendMissPath
    dsimp only
    rw [getCachedPersonalizedScores_recCache, getCachedNewsData_recCache]
  have hget2 : getA (sortStrings interests, canonWeights weights, limit)
      (recommendForUser interests weights limit t1 now1 api1 mock1 s0).2.recCache =
      some ⟨(recommendForUser interests weights limit t1 now1 api1 mock1 s0).1, t1⟩ := by
    rw [hrec1]
    exact getA_setCache_fresh _ _ t1 s0.recCache hnd hold
  have hvalid2 : cacheValid
      (⟨(recommendForUser interests weights limit t1 now1 api1 mock1 s0).1, t1⟩ :
        CacheEntry (List Scored)) recommendationTtl t2 = true := by
    unfold cacheValid
    simpa using httl
  rw [recommendForUser_hit interests weights limit t2 now2 api2 mock2 _ _ hget2 hvalid2]
  exact ⟨rfl, rfl, rfl, rfl, rfl, rfl, rfl, rfl⟩

/-- C7 witness: the two-call statement instantiated on the empty engine
state with a singleton interest. -/
theorem c7_rank_cached_second_call_witness :
    ((initEngine.recCache.map Prod.fst).Nodup ∧
     ((1 : ℚ) - 0 < recommendationTtl)) ∧
    (recommendForUser ["ai_ml"] [("ai_ml", 1)] 10 1 0 [] []
        (recommendForUser ["ai_ml"] [("ai_ml", 1)] 10 0 0 [] [] initEngine).2).1
      = (recommendForUser ["ai_ml"] [("ai_ml", 1)] 10 0 0 [] [] initEngine).1 := by
  refine ⟨⟨by decide, by norm_num [recommendationTtl]⟩, ?_⟩
  exact (c7_rank_cached_second_call ["ai_ml"] [("ai_ml", 1)] 10 0 1 0 0 [] [] [] []
    initEngine (by decide) (by decide) (by decide)
    (by norm_num [recommendationTtl])).1

/-! ## C8: diversity control at limit 10 -/

/-- The category at position `i` of a selection (empty string beyond the
end). -/
def catAt : List Scored → ℕ → String
  | [], _ => ""
  | x :: _, 0 => x.item.category
  | _ :: rest, i + 1 => catAt rest i

/-- Folding the grouping step over a single-category list extends that
category's group. -/
theorem groupByCat_aux (d : String) (l : List Scored) (acc : List Scored)
    (h : ∀ x ∈ l, x.item.category = d) :
    l.foldl (fun acc2 n => addToGroups acc2 n.item.category n) [(d, acc)]
      = [(d, acc ++ l)] := by
  induction l generalizing acc with
  | nil => simp
  | cons x rest ih =>
    have hx : x.item.category = d := h x (List.mem_cons_self x rest)
    have hstep : addToGroups [(d, acc)] x.item.category x = [(d, acc ++ [x])] := by
      rw [addToGroups, if_pos hx]
    simp only [List.foldl_cons, hstep]
    rw [ih (acc ++ [x]) fun y hy => h y (List.mem_cons_of_mem x hy)]
    simp

/-- `category_groups` of a nonempty single-category list. -/
theorem groupByCat_all_eq (d : String) (l : List Scored) (hne : l ≠ [])
    (h : ∀ x ∈ l, x.item.category = d) : groupByCat l = [(d, l)] := by
  cases l with
  | nil => exact absurd rfl hne
  | cons x rest =>
    have hx : x.item.category = d := h x (List.mem_cons_self x rest)
    unfold groupByCat
    simp only [List.foldl_cons]
    have hstep : addToGroups [] x.item.category x = [(x.item.category, [x])] := rfl
    rw [hstep, hx,
      groupByCat_aux d rest [x] fun y hy => h y (List.mem_cons_of_mem x hy)]
    simp

theorem length_eq_seven (l : List Scored) (h : l.length = 7) :
    ∃ a1 a2 a3 a4 a5 a6 a7, l = [a1, a2, a3, a4, a5, a6, a7] := by
  rcases l with _ | ⟨a1, l⟩
  · simp at h
  rcases l with _ | ⟨a2, l⟩
  · simp at h
  rcases l with _ | ⟨a3, l⟩
  · simp at h
  rcases l with _ | ⟨a4, l⟩
  · simp at h
  rcases l with _ | ⟨a5, l⟩
  · simp at h
  rcases l with _ | ⟨a6, l⟩
  · simp at h
  rcases l with _ | ⟨a7, l⟩
  · simp at h
  rcases l with _ | ⟨a8, l⟩
  · exact ⟨a1, a2, a3, a4, a5, a6, a7, rfl⟩
  · simp at h

/-- Triple-repeat property of the three-group interleave shape
`[d, r, e, d, r, d, d, d, d, d]`: three consecutive equal categories occur
only where every remaining item has that category. -/
theorem c8_shape_three_groups (a1 a2 a3 a4 a5 a6 a7 x y z : Scored)
    (d r e : String)
    (ha1 : a1.item.category = d) (ha2 : a2.item.category = d)
    (ha3 : a3.item.category = d) (ha4 : a4.item.category = d)
    (ha5 : a5.item.category = d) (ha6 : a6.item.category = d)
    (ha7 : a7.item.category = d)
    (hx : x.item.category = r) (hy : y.item.category = r)
    (hz : z.item.category = e)
    (hrd : r ≠ d) (hed : e ≠ d) (her : e ≠ r) :
    ∀ i, i + 2 < ([a1, x, z, a2, y, a3, a4, a5, a6, a7] : List Scored).length →
      catAt [a1, x, z, a2, y, a3, a4, a5, a6, a7] i
        = catAt [a1, x, z, a2, y, a3, a4, a5, a6, a7] (i + 1) →
      catAt [a1, x, z, a2, y, a3, a4, a5, a6, a7] (i + 1)
        = catAt [a1, x, z, a2, y, a3, a4, a5, a6, a7] (i + 2) →
      ∀ j, i ≤ j → j < ([a1, x, z, a2, y, a3, a4, a5, a6, a7] : List Scored).length →
        catAt [a1, x, z, a2, y, a3, a4, a5, a6, a7] j
          = catAt [a1, x, z, a2, y, a3, a4, a5, a6, a7] i := by
  have c0 : catAt [a1, x, z, a2, y, a3, a4, a5, a6, a7] 0 = d := ha1
  have c1 : catAt [a1, x, z, a2, y, a3, a4, a5, a6, a7] 1 = r := hx
  have c2 : catAt [a1, x, z, a2, y, a3, a4, a5, a6, a7] 2 = e := hz
  have c3 : catAt [a1, x, z, a2, y, a3, a4, a5, a6, a7] 3 = d := ha2
  have c4 : catAt [a1, x, z, a2, y, a3, a4, a5, a6, a7] 4 = r := hy
  have c5 : catAt [a1, x, z, a2, y, a3, a4, a5, a6, a7] 5 = d := ha3
  have c6 : catAt [a1, x, z, a2, y, a3, a4, a5, a6, a7] 6 = d := ha4
  have c7 : catAt [a1, x, z, a2, y, a3, a4, a5, a6, a7] 7 = d := ha5
  have c8 : catAt [a1, x, z, a2, y, a3, a4, a5, a6, a7] 8 = d := ha6
  have c9 : catAt [a1, x, z, a2, y, a3, a4, a5, a6, a7] 9 = d := ha7
  intro i hlen h1 h12 j hij hj
  have hi7 : i ≤ 7 := by
    simp only [List.length_cons, List.length_nil] at hlen
    omega
  have hj9 : j ≤ 9 := by
    simp only [List.length_cons, List.length_nil] at hj
    omega
  clear hlen hj
  interval_cases i
  · rw [c0, c1] at h1
    exact absurd h1 (Ne.symm hrd)
  · rw [c1, c2] at h1
    exact absurd h1 (Ne.symm her)
  · rw [c2, c3] at h1
    exact absurd h1 hed
  · rw [c3, c4] at h1
    exact absurd h1 (Ne.symm hrd)
  · rw [c4, c5] at h1
    exact absurd h1 hrd
  · rw [c5]
    interval_cases j
    · exact c5
    · exact c6
    · exact c7
    · exact c8
    · exact c9
  · rw [c6]
    interval_cases j
    · exact c6
    · exact c7
    · exact c8
    · exact c9
  · rw [c7]
    interval_cases j
    · exact c7
    · exact c8
    · exact c9

/-- Triple-repeat property of the four-group interleave shape
`[d, r1, r2, e, d, d, d, d, d, d]`. -/
theorem c8_shape_four_groups (a1 a2 a3 a4 a5 a6 a7 x y z : Scored)
    (d r1 r2 e : String)
    (ha1 : a1.item.category = d) (ha2 : a2.item.category = d)
    (ha3 : a3.item.category = d) (ha4 : a4.item.category = d)
    (ha5 : a5.item.category = d) (ha6 : a6.item.category = d)
    (ha7 : a7.item.category = d)
    (hx : x.item.category = r1) (hy : y.item.category = r2)
    (hz : z.item.category = e)
    (hr1d : r1 ≠ d) (hed : e ≠ d)
    (hr12 : r1 ≠ r2) (her2 : e ≠ r2) :
    ∀ i, i + 2 < ([a1, x, y, z, a2, a3, a4, a5, a6, a7] : List Scored).length →
      catAt [a1, x, y, z, a2, a3, a4, a5, a6, a7] i
        = catAt [a1, x, y, z, a2, a3, a4, a5, a6, a7] (i + 1) →
      catAt [a1, x, y, z, a2, a3, a4, a5, a6, a7] (i + 1)
        = catAt [a1, x, y, z, a2, a3, a4, a5, a6, a7] (i + 2) →
      ∀ j, i ≤ j → j < ([a1, x, y, z, a2, a3, a4, a5, a6, a7] : List Scored).length →
        catAt [a1, x, y, z, a2, a3, a4, a5, a6, a7] j
          = catAt [a1, x, y, z, a2, a3, a4, a5, a6, a7] i := by
  have c0 : catAt [a1, x, y, z, a2, a3, a4, a5, a6, a7] 0 = d := ha1
  have c1 : catAt [a1, x, y, z, a2, a3, a4, a5, a6, a7] 1 = r1 := hx
  have c2 : catAt [a1, x, y, z, a2, a3, a4, a5, a6, a7] 2 = r2 := hy
  have c3 : catAt [a1, x, y, z, a2, a3, a4, a5, a6, a7] 3 = e := hz
  have c4 : catAt [a1, x, y, z, a2, a3, a4, a5, a6, a7] 4 = d := ha2
  have c5 : catAt [a1, x, y, z, a2, a3, a4, a5, a6, a7] 5 = d := ha3
  have c6 : catAt [a1, x, y, z, a2, a3, a4, a5, a6, a7] 6 = d := ha4
  have c7 : catAt [a1, x, y, z, a2, a3, a4, a5, a6, a7] 7 = d := ha5
  have c8 : catAt [a1, x, y, z, a2, a3, a4, a5, a6, a7] 8 = d := ha6
  have c9 : catAt [a1, x, y, z, a2, a3, a4, a5, a6, a7] 9 = d := ha7
  intro i hlen h1 h12 j hij hj
  have hi7 : i ≤ 7 := by
    simp only [List.length_cons, List.length_nil] at hlen
    omega
  have hj9 : j ≤ 9 := by
    simp only [List.length_cons, List.length_nil] at hj
    omega
  clear hlen hj
  interval_cases i
  · rw [c0, c1] at h1
    exact absurd h1 (Ne.symm hr1d)
  · rw [c1, c2] at h1
    exact absurd h1 hr12
  · rw [c2, c3] at h1
    exact absurd h1 (Ne.symm her2)
  · rw [c3, c4] at h1
    exact absurd h1 hed
  · rw [c4]
    interval_cases j
    · exact c4
    · exact c5
    · exact c6
    · exact c7
    · exact c8
    · exact c9
  · rw [c5]
    interval_cases j
    · exact c5
    · exact c6
    · exact c7
    · exact c8
    · exact c9
  · rw [c6]
    interval_cases j
    · exact c6
    · exact c7
    · exact c8
    · exact c9
  · rw [c7]
    interval_cases j
    · exact c7
    · exact c8
    · exact c9

end NewsAgent

namespace NewsAgent

/-- Ten concrete scored candidates for the dominant interest "ai_ml":
seven `ai_ml` items, two related `programming` items, one `web3_crypto`
exploration item. -/
def c8Scored : List Scored :=
  [⟨⟨"a1", "", "", "ai_ml", 9, none⟩, 9⟩,
   ⟨⟨"a2", "", "", "ai_ml", 8, none⟩, 8⟩,
   ⟨⟨"a3", "", "", "ai_ml", 7, none⟩, 7⟩,
   ⟨⟨"a4", "", "", "ai_ml", 6, none⟩, 6⟩,
   ⟨⟨"a5", "", "", "ai_ml", 5, none⟩, 5⟩,
   ⟨⟨"a6", "", "", "ai_ml", 4, none⟩, 4⟩,
   ⟨⟨"a7", "", "", "ai_ml", 3, none⟩, 3⟩,
   ⟨⟨"p1", "", "", "programming", 2, none⟩, 2⟩,
   ⟨⟨"p2", "", "", "programming", 1, none⟩, 1⟩,
   ⟨⟨"w1", "", "", "web3_crypto", 1, none⟩, 1⟩]

/-- C8: for `limit = 10` and a single dominant interest category `d`, when the
candidate pool holds at least 7 interest-category items, at least 2 related
items of other categories and at least 1 exploration item,
`_apply_diversity_control` outputs at most 7 items of the dominant category,
and three consecutive output positions share a category only when every later
position (the remaining selection) is of that single category. -/
theorem c8_diversity_limit_ten (scored : List Scored) (d : String)
    (h7 : 7 ≤ (scored.filter fun v => decide (v.item.category ∈ ([d] : List String))).length)
    (h2r : 2 ≤ (scored.filter fun v =>
        decide (v.item.category ∉ ([d] : List String)) &&
          isAnyRelated v.item.category [d]).length)
    (h1e : 1 ≤ (scored.filter fun v =>
        decide (v.item.category ∉ ([d] : List String)) &&
          !(isAnyRelated v.item.category [d])).length) :
    ((applyDiversityControl scored [d] 10).filter fun v =>
        decide (v.item.category = d)).length ≤ 7 ∧
    (∀ i, i + 2 < (applyDiversityControl scored [d] 10).length →
      catAt (applyDiversityControl scored [d] 10) i
        = catAt (applyDiversityControl scored [d] 10) (i + 1) →
      catAt (applyDiversityControl scored [d] 10) (i + 1)
        = catAt (applyDiversityControl scored [d] 10) (i + 2) →
      ∀ j, i ≤ j → j < (applyDiversityControl scored [d] 10).length →
        catAt (applyDiversityControl scored [d] 10) j
          = catAt (applyDiversityControl scored [d] 10) i) := by
  -- the interest bucket
  have hcatsui : ∀ v ∈ (scored.filter fun v =>
      decide (v.item.category ∈ ([d] : List String))), v.item.category = d := by
    intro v hv
    have := List.of_mem_filter hv
    simpa using this
  have huilen : 7 ≤ (scored.filter fun v =>
      decide (v.item.category ∈ ([d] : List String))).length := h7
  have huine : (scored.filter fun v =>
      decide (v.item.category ∈ ([d] : List String))) ≠ [] := by
    intro h
    rw [h] at huilen
    simp at huilen
  -- the balanced selection is exactly the top-7 interest items
  have htlen : ((sortByScoreDesc (scored.filter fun v =>
      decide (v.item.category ∈ ([d] : List String)))).take 7).length = 7 := by
    rw [List.length_take, sortByScoreDesc, List.length_insertionSort]
    omega
  obtain ⟨a1, a2, a3, a4, a5, a6, a7, hbal⟩ := length_eq_seven _ htlen
  have hsel : selectBalancedNews (scored.filter fun v =>
      decide (v.item.category ∈ ([d] : List String))) [d] 7
      = [a1, a2, a3, a4, a5, a6, a7] := by
    unfold selectBalancedNews
    rw [if_neg (by push_neg; exact ⟨huine, by simp, by simp⟩)]
    dsimp only
    rw [groupByCat_all_eq d _ huine hcatsui]
    simp only [List.foldl_cons, List.foldl_nil, getA_single, Nat.div_one]
    rw [show (max 1 (7 / ([d] : List String).length) : ℕ) = 7 by simp]
    rw [List.nil_append, hbal]
    rw [if_neg (by simp)]
  -- destructure the related bucket
  obtain ⟨x, y, rel', hrel⟩ : ∃ x y rel', (scored.filter fun v =>
      decide (v.item.category ∉ ([d] : List String)) &&
        isAnyRelated v.item.category [d]) = x :: y :: rel' := by
    rcases hr : (scored.filter fun v =>
      decide (v.item.category ∉ ([d] : List String)) &&
        isAnyRelated v.item.category [d]) with _ | ⟨x, _ | ⟨y, rel'⟩⟩
    · rw [hr] at h2r
      simp at h2r
    · rw [hr] at h2r
      simp at h2r
    · exact ⟨x, y, rel', hr⟩
  -- destructure the sorted exploration bucket
  have hexne : (scored.filter fun v =>
      decide (v.item.category ∉ ([d] : List String)) &&
        !(isAnyRelated v.item.category [d])) ≠ [] := by
    intro h
    rw [h] at h1e
    simp at h1e
  obtain ⟨z, ex', hex⟩ : ∃ z ex', List.insertionSort
      (fun a b : Scored => b.item.hotScore ≤ a.item.hotScore)
      (scored.filter fun v =>
        decide (v.item.category ∉ ([d] : List String)) &&
          !(isAnyRelated v.item.category [d])) = z :: ex' := by
    rcases hc : List.insertionSort
      (fun a b : Scored => b.item.hotScore ≤ a.item.hotScore)
      (scored.filter fun v =>
        decide (v.item.category ∉ ([d] : List String)) &&
          !(isAnyRelated v.item.category [d])) with _ | ⟨z, ex'⟩
    · have := List.length_insertionSort
        (fun a b : Scored => b.item.hotScore ≤ a.item.hotScore)
        (scored.filter fun v =>
          decide (v.item.category ∉ ([d] : List String)) &&
            !(isAnyRelated v.item.category [d]))
      rw [hc] at this
      have hl := h1e
      rw [← this] at hl
      simp at hl
    · exact ⟨z, ex', rfl⟩
  -- the selected list before interleaving
  have hADC : applyDiversityControl scored [d] 10 =
      (interleaveRecs ([a1, a2, a3, a4, a5, a6, a7] ++ [x, y] ++ [z])).take 10 := by
    unfold applyDiversityControl
    have hne : scored ≠ [] := by
      intro h
      subst h
      simp at h7
    rw [if_neg (by push_neg; exact ⟨hne, by omega⟩)]
    dsimp only
    rw [show ((10 : ℕ) * 7 / 10) = 7 from rfl]
    rw [show ((10 : ℕ) * 2 / 10) = 2 from rfl]
    rw [hsel]
    simp only [hrel, hex]
    rw [if_pos (show x :: y :: rel' ≠ [] ∧ (2 : ℕ) > 0 from ⟨by simp, by omega⟩)]
    rw [if_pos (show (scored.filter fun v =>
        decide (v.item.category ∉ ([d] : List String)) &&
          !(isAnyRelated v.item.category [d])) ≠ [] ∧ (10 - 7 - 2 : ℕ) > 0 from
      ⟨hexne, by omega⟩)]
    rw [show (x :: y :: rel').take 2 = [x, y] from rfl]
    rw [show (10 - 7 - 2 : ℕ) = 1 from rfl]
    rw [show (z :: ex').take 1 = [z] from rfl]
    rw [if_neg (by simp)]
  -- category facts for the ten selected items
  have hmemA : ∀ w ∈ ([a1, a2, a3, a4, a5, a6, a7] : List Scored),
      w.item.category = d := by
    intro w hw
    apply hcatsui
    have hw2 : w ∈ List.take 7 (sortByScoreDesc (scored.filter fun v =>
        decide (v.item.category ∈ ([d] : List String)))) := by
      rw [hbal]
      exact hw
    have hw3 := List.mem_of_mem_take hw2
    rw [sortByScoreDesc] at hw3
    exact (List.mem_insertionSort _).mp hw3
  have hxmem : x ∈ (scored.filter fun v =>
      decide (v.item.category ∉ ([d] : List String)) &&
        isAnyRelated v.item.category [d]) := by
    rw [hrel]
    simp
  have hymem : y ∈ (scored.filter fun v =>
      decide (v.item.category ∉ ([d] : List String)) &&
        isAnyRelated v.item.category [d]) := by
    rw [hrel]
    simp
  have hzmem : z ∈ (scored.filter fun v =>
      decide (v.item.category ∉ ([d] : List String)) &&
        !(isAnyRelated v.item.category [d])) := by
    have : z ∈ z :: ex' := by simp
    rw [← hex] at this
    exact (List.mem_insertionSort _).mp this
  have hxd : x.item.category ≠ d := by
    have := List.of_mem_filter hxmem
    simp at this
    exact this.1
  have hxrel : isAnyRelated x.item.category [d] = true := by
    have := List.of_mem_filter hxmem
    simp at this
    exact this.2
  have hyd : y.item.category ≠ d := by
    have := List.of_mem_filter hymem
    simp at this
    exact this.1
  have hyrel : isAnyRelated y.item.category [d] = true := by
    have := List.of_mem_filter hymem
    simp at this
    exact this.2
  have hzd : z.item.category ≠ d := by
    have := List.of_mem_filter hzmem
    simp at this
    exact this.1
  have hzrel : isAnyRelated z.item.category [d] = false := by
    have := List.of_mem_filter hzmem
    simp at this
    exact this.2
  have hzx : z.item.category ≠ x.item.category := by
    intro h
    rw [h, hxrel] at hzrel
    cases hzrel
  have hzy : z.item.category ≠ y.item.category := by
    intro h
    rw [h, hyrel] at hzrel
    cases hzrel
  have ea1 : a1.item.category = d := hmemA a1 (by simp)
  have ea2 : a2.item.category = d := hmemA a2 (by simp)
  have ea3 : a3.item.category = d := hmemA a3 (by simp)
  have ea4 : a4.item.category = d := hmemA a4 (by simp)
  have ea5 : a5.item.category = d := hmemA a5 (by simp)
  have ea6 : a6.item.category = d := hmemA a6 (by simp)
  have ea7 : a7.item.category = d := hmemA a7 (by simp)
  have hconcat : ([a1, a2, a3, a4, a5, a6, a7] ++ [x, y] ++ [z] : List Scored)
      = [a1, a2, a3, a4, a5, a6, a7, x, y, z] := rfl
  rw [hconcat] at hADC
  by_cases hxy : y.item.category = x.item.category
  · -- the two related items share a category: three groups
    have hgroups : groupByCat [a1, a2, a3, a4, a5, a6, a7, x, y, z]
        = [(d, [a1, a2, a3, a4, a5, a6, a7]), (x.item.category, [x, y]),
           (z.item.category, [z])] := by
      unfold groupByCat
      rw [show ([a1, a2, a3, a4, a5, a6, a7, x, y, z] : List Scored)
        = [a1, a2, a3, a4, a5, a6, a7] ++ [x, y, z] from rfl, List.foldl_append]
      rw [show List.foldl (fun acc2 n => addToGroups acc2 n.item.category n)
          ([] : List (String × List Scored)) [a1, a2, a3, a4, a5, a6, a7]
          = groupByCat [a1, a2, a3, a4, a5, a6, a7] from rfl]
      rw [groupByCat_all_eq d _ (by simp) hmemA]
      simp only [List.foldl_cons, List.foldl_nil]
      simp [addToGroups, hxd, hyd, hzd, hxy, hzx, hzy]
    have hil : interleaveRecs [a1, a2, a3, a4, a5, a6, a7, x, y, z]
        = [a1, x, z, a2, y, a3, a4, a5, a6, a7] := by
      unfold interleaveRecs
      rw [if_neg (by simp)]
      dsimp only
      rw [hgroups]
      rw [if_neg (by simp)]
      simp [roundRobin, rrHeads]
    rw [hil] at hADC
    rw [show ([a1, x, z, a2, y, a3, a4, a5, a6, a7] : List Scored).take 10
        = [a1, x, z, a2, y, a3, a4, a5, a6, a7] from rfl] at hADC
    constructor
    · rw [hADC]
      simp [List.filter_cons, ea1, ea2, ea3, ea4, ea5, ea6, ea7, hxd, hyd, hzd]
    · intro i hlen h1 h2 j hij hj
      rw [hADC] at hlen h1 h2 hj ⊢
      exact c8_shape_three_groups a1 a2 a3 a4 a5 a6 a7 x y z d
        x.item.category z.item.category ea1 ea2 ea3 ea4 ea5 ea6 ea7
        rfl hxy rfl hxd hzd hzx i hlen h1 h2 j hij hj
  · -- all three extra items distinct: four groups
    have hgroups : groupByCat [a1, a2, a3, a4, a5, a6, a7, x, y, z]
        = [(d, [a1, a2, a3, a4, a5, a6, a7]), (x.item.category, [x]),
           (y.item.category, [y]), (z.item.category, [z])] := by
      unfold groupByCat
      rw [show ([a1, a2, a3, a4, a5, a6, a7, x, y, z] : List Scored)
        = [a1, a2, a3, a4, a5, a6, a7] ++ [x, y, z] from rfl, List.foldl_append]
      rw [show List.foldl (fun acc2 n => addToGroups acc2 n.item.category n)
          ([] : List (String × List Scored)) [a1, a2, a3, a4, a5, a6, a7]
          = groupByCat [a1, a2, a3, a4, a5, a6, a7] from rfl]
      rw [groupByCat_all_eq d _ (by simp) hmemA]
      simp only [List.foldl_cons, List.foldl_nil]
      simp [addToGroups, hxd, hyd, hzd, hxy, hzx, hzy]
    have hil : interleaveRecs [a1, a2, a3, a4, a5, a6, a7, x, y, z]
        = [a1, x, y, z, a2, a3, a4, a5, a6, a7] := by
      unfold interleaveRecs
      rw [if_neg (by simp)]
      dsimp only
      rw [hgroups]
      rw [if_neg (by simp)]
      simp [roundRobin, rrHeads]
    rw [hil] at hADC
    rw [show ([a1, x, y, z, a2, a3, a4, a5, a6, a7] : List Scored).take 10
        = [a1, x, y, z, a2, a3, a4, a5, a6, a7] from rfl] at hADC
    constructor
    · rw [hADC]
      simp [List.filter_cons, ea1, ea2, ea3, ea4, ea5, ea6, ea7, hxd, hyd, hzd]
    · intro i hlen h1 h2 j hij hj
      rw [hADC] at hlen h1 h2 hj ⊢
      exact c8_shape_four_groups a1 a2 a3 a4 a5 a6 a7 x y z d
        x.item.category y.item.category z.item.category
        ea1 ea2 ea3 ea4 ea5 ea6 ea7 rfl rfl rfl hxd hzd
        (Ne.symm hxy) hzy i hlen h1 h2 j hij hj

/-- Events of the concrete run refuting the `min_weight` lower bound:
identical maximal-engagement deep-read events walking through four
categories until the proportional reduction clamps and the final
renormalization pushes a floored weight strictly below `min_weight`. -/
def c1Evt (c : String) : EventIn :=
  ⟨⟨"u1", "deep_read", "n1", c, "", 200, 90, 10⟩, 10, 1, true⟩

def c1Cats : List String :=
  ["ai_ml", "ai_ml", "ai_ml", "ai_ml", "ai_ml", "ai_ml", "ai_ml", "ai_ml", "ai_ml", "ai_ml", "ai_ml", "ai_ml", "startup_venture", "startup_venture", "startup_venture", "startup_venture", "startup_venture", "startup_venture", "startup_venture", "startup_venture", "startup_venture", "startup_venture", "startup_venture", "startup_venture", "startup_venture", "startup_venture", "startup_venture", "web3_crypto", "web3_crypto", "web3_crypto", "web3_crypto", "web3_crypto", "web3_crypto", "web3_crypto", "web3_crypto", "web3_crypto", "web3_crypto", "web3_crypto", "web3_crypto", "web3_crypto", "web3_crypto", "web3_crypto", "web3_crypto", "web3_crypto", "programming", "programming", "programming", "programming", "programming", "programming", "programming", "programming", "programming", "programming", "programming"]

def c1Events : List EventIn := c1Cats.map c1Evt

/-- Stored record of each of those events. -/
def c1Rec : StoredBehavior := ⟨"deep_read", 10⟩

def c1St1 : BSysState :=
  ⟨[("u1", List.replicate 1 c1Rec)], [("u1", ⟨((13144 : ℚ)/78125), ((9283 : ℚ)/78125), ((9283 : ℚ)/78125), ((9283 : ℚ)/78125), ((9283 : ℚ)/78125), ((9283 : ℚ)/78125), ((9283 : ℚ)/78125), ((9283 : ℚ)/78125)⟩)], [], ⟨1, 1, 1, 0, 0, 0⟩⟩

def c1St2 : BSysState :=
  ⟨[("u1", List.replicate 2 c1Rec)], [("u1", ⟨((124457 : ℚ)/625000), ((500543 : ℚ)/4375000), ((500543 : ℚ)/4375000), ((500543 : ℚ)/4375000), ((500543 : ℚ)/4375000), ((500543 : ℚ)/4375000), ((500543 : ℚ)/4375000), ((500543 : ℚ)/4375000)⟩)], [], ⟨2, 1, 2, 0, 0, 0⟩⟩

def c1St3 : BSysState :=
  ⟨[("u1", List.replicate 3 c1Rec)], [("u1", ⟨((71881 : ℚ)/312500), ((240619 : ℚ)/2187500), ((240619 : ℚ)/2187500), ((240619 : ℚ)/2187500), ((240619 : ℚ)/2187500), ((240619 : ℚ)/2187500), ((240619 : ℚ)/2187500), ((240619 : ℚ)/2187500)⟩)], [], ⟨3, 1, 3, 0, 0, 0⟩⟩

def c1St4 : BSysState :=
  ⟨[("u1", List.replicate 4 c1Rec)], [("u1", ⟨((163067 : ℚ)/625000), ((461933 : ℚ)/4375000), ((461933 : ℚ)/4375000), ((461933 : ℚ)/4375000), ((461933 : ℚ)/4375000), ((461933 : ℚ)/4375000), ((461933 : ℚ)/4375000), ((461933 : ℚ)/4375000)⟩)], [], ⟨4, 1, 4, 0, 0, 0⟩⟩

def c1St5 : BSysState :=
  ⟨[("u1", List.replicate 5 c1Rec)], [("u1", ⟨((45593 : ℚ)/156250), ((110657 : ℚ)/1093750), ((110657 : ℚ)/1093750), ((110657 : ℚ)/1093750), ((110657 : ℚ)/1093750), ((110657 : ℚ)/1093750), ((110657 : ℚ)/1093750), ((110657 : ℚ)/1093750)⟩)], [], ⟨5, 1, 5, 0, 0, 0⟩⟩

def c1St6 : BSysState :=
  ⟨[("u1", List.replicate 6 c1Rec)], [("u1", ⟨((24727 : ℚ)/78125), ((53398 : ℚ)/546875), ((53398 : ℚ)/546875), ((53398 : ℚ)/546875), ((53398 : ℚ)/546875), ((53398 : ℚ)/546875), ((53398 : ℚ)/546875), ((53398 : ℚ)/546875)⟩)], [], ⟨6, 1, 6, 0, 0, 0⟩⟩

def c1St7 : BSysState :=
  ⟨[("u1", List.replicate 7 c1Rec)], [("u1", ⟨((10663 : ℚ)/31250), ((2941 : ℚ)/31250), ((2941 : ℚ)/31250), ((2941 : ℚ)/31250), ((2941 : ℚ)/31250), ((2941 : ℚ)/31250), ((2941 : ℚ)/31250), ((2941 : ℚ)/31250)⟩)], [], ⟨7, 1, 7, 0, 0, 0⟩⟩

def c1St8 : BSysState :=
  ⟨[("u1", List.replicate 8 c1Rec)], [("u1", ⟨((28588 : ℚ)/78125), ((49537 : ℚ)/546875), ((49537 : ℚ)/546875), ((49537 : ℚ)/546875), ((49537 : ℚ)/546875), ((49537 : ℚ)/546875), ((49537 : ℚ)/546875), ((49537 : ℚ)/546875)⟩)], [], ⟨8, 1, 8, 0, 0, 0⟩⟩

def c1St9 : BSysState :=
  ⟨[("u1", List.replicate 9 c1Rec)], [("u1", ⟨((61037 : ℚ)/156250), ((95213 : ℚ)/1093750), ((95213 : ℚ)/1093750), ((95213 : ℚ)/1093750), ((95213 : ℚ)/1093750), ((95213 : ℚ)/1093750), ((95213 : ℚ)/1093750), ((95213 : ℚ)/1093750)⟩)], [], ⟨9, 1, 9, 0, 0, 0⟩⟩

def c1St10 : BSysState :=
  ⟨[("u1", List.replicate 10 c1Rec)], [("u1", ⟨((32449 : ℚ)/78125), ((45676 : ℚ)/546875), ((45676 : ℚ)/546875), ((45676 : ℚ)/546875), ((45676 : ℚ)/546875), ((45676 : ℚ)/546875), ((45676 : ℚ)/546875), ((45676 : ℚ)/546875)⟩)], [], ⟨10, 1, 10, 0, 0, 0⟩⟩

def c1St11 : BSysState :=
  ⟨[("u1", List.replicate 11 c1Rec)], [("u1", ⟨((68759 : ℚ)/156250), ((87491 : ℚ)/1093750), ((87491 : ℚ)/1093750), ((87491 : ℚ)/1093750), ((87491 : ℚ)/1093750), ((87491 : ℚ)/1093750), ((87491 : ℚ)/1093750), ((87491 : ℚ)/1093750)⟩)], [], ⟨11, 1, 11, 0, 0, 0⟩⟩

def c1St12 : BSysState :=
  ⟨[("u1", List.replicate 12 c1Rec)], [("u1", ⟨((9 : ℚ)/20), ((11 : ℚ)/140), ((11 : ℚ)/140), ((11 : ℚ)/140), ((11 : ℚ)/140), ((11 : ℚ)/140), ((11 : ℚ)/140), ((11 : ℚ)/140)⟩)], [], ⟨12, 1, 12, 0, 0, 0⟩⟩

def c1St13 : BSysState :=
  ⟨[("u1", List.replicate 13 c1Rec)], [("u1", ⟨((5884713 : ℚ)/13437500), ((225929 : ℚ)/2187500), ((7192427 : ℚ)/94062500), ((7192427 : ℚ)/94062500), ((7192427 : ℚ)/94062500), ((7192427 : ℚ)/94062500), ((7192427 : ℚ)/94062500), ((7192427 : ℚ)/94062500)⟩)], [], ⟨13, 1, 13, 0, 0, 0⟩⟩

def c1St14 : BSysState :=
  ⟨[("u1", List.replicate 14 c1Rec)], [("u1", ⟨((5722551 : ℚ)/13437500), ((279983 : ℚ)/2187500), ((6994229 : ℚ)/94062500), ((6994229 : ℚ)/94062500), ((6994229 : ℚ)/94062500), ((6994229 : ℚ)/94062500), ((6994229 : ℚ)/94062500), ((6994229 : ℚ)/94062500)⟩)], [], ⟨14, 1, 14, 0, 0, 0⟩⟩

def c1St15 : BSysState :=
  ⟨[("u1", List.replicate 15 c1Rec)], [("u1", ⟨((5560389 : ℚ)/13437500), ((334037 : ℚ)/2187500), ((6796031 : ℚ)/94062500), ((6796031 : ℚ)/94062500), ((6796031 : ℚ)/94062500), ((6796031 : ℚ)/94062500), ((6796031 : ℚ)/94062500), ((6796031 : ℚ)/94062500)⟩)], [], ⟨15, 1, 15, 0, 0, 0⟩⟩

def c1St16 : BSysState :=
  ⟨[("u1", List.replicate 16 c1Rec)], [("u1", ⟨((5398227 : ℚ)/13437500), ((388091 : ℚ)/2187500), ((6597833 : ℚ)/94062500), ((6597833 : ℚ)/94062500), ((6597833 : ℚ)/94062500), ((6597833 : ℚ)/94062500), ((6597833 : ℚ)/94062500), ((6597833 : ℚ)/94062500)⟩)], [], ⟨16, 1, 16, 0, 0, 0⟩⟩

def c1St17 : BSysState :=
  ⟨[("u1", List.replicate 17 c1Rec)], [("u1", ⟨((1047213 : ℚ)/2687500), ((88429 : ℚ)/437500), ((1279927 : ℚ)/18812500), ((1279927 : ℚ)/18812500), ((1279927 : ℚ)/18812500), ((1279927 : ℚ)/18812500), ((1279927 : ℚ)/18812500), ((1279927 : ℚ)/18812500)⟩)], [], ⟨17, 1, 17, 0, 0, 0⟩⟩

def c1St18 : BSysState :=
  ⟨[("u1", List.replicate 18 c1Rec)], [("u1", ⟨((5073903 : ℚ)/13437500), ((496199 : ℚ)/2187500), ((6201437 : ℚ)/94062500), ((6201437 : ℚ)/94062500), ((6201437 : ℚ)/94062500), ((6201437 : ℚ)/94062500), ((6201437 : ℚ)/94062500), ((6201437 : ℚ)/94062500)⟩)], [], ⟨18, 1, 18, 0, 0, 0⟩⟩

def c1St19 : BSysState :=
  ⟨[("u1", List.replicate 19 c1Rec)], [("u1", ⟨((4911741 : ℚ)/13437500), ((550253 : ℚ)/2187500), ((6003239 : ℚ)/94062500), ((6003239 : ℚ)/94062500), ((6003239 : ℚ)/94062500), ((6003239 : ℚ)/94062500), ((6003239 : ℚ)/94062500), ((6003239 : ℚ)/94062500)⟩)], [], ⟨19, 1, 19, 0, 0, 0⟩⟩

def c1St20 : BSysState :=
  ⟨[("u1", List.replicate 20 c1Rec)], [("u1", ⟨((4749579 : ℚ)/13437500), ((604307 : ℚ)/2187500), ((5805041 : ℚ)/94062500), ((5805041 : ℚ)/94062500), ((5805041 : ℚ)/94062500), ((5805041 : ℚ)/94062500), ((5805041 : ℚ)/94062500), ((5805041 : ℚ)/94062500)⟩)], [], ⟨20, 1, 20, 0, 0, 0⟩⟩

def c1St21 : BSysState :=
  ⟨[("u1", List.replicate 21 c1Rec)], [("u1", ⟨((4587417 : ℚ)/13437500), ((658361 : ℚ)/2187500), ((5606843 : ℚ)/94062500), ((5606843 : ℚ)/94062500), ((5606843 : ℚ)/94062500), ((5606843 : ℚ)/94062500), ((5606843 : ℚ)/94062500), ((5606843 : ℚ)/94062500)⟩)], [], ⟨21, 1, 21, 0, 0, 0⟩⟩

def c1St22 : BSysState :=
  ⟨[("u1", List.replicate 22 c1Rec)], [("u1", ⟨((885051 : ℚ)/2687500), ((142483 : ℚ)/437500), ((1081729 : ℚ)/18812500), ((1081729 : ℚ)/18812500), ((1081729 : ℚ)/18812500), ((1081729 : ℚ)/18812500), ((1081729 : ℚ)/18812500), ((1081729 : ℚ)/18812500)⟩)], [], ⟨22, 1, 22, 0, 0, 0⟩⟩

def c1St23 : BSysState :=
  ⟨[("u1", List.replicate 23 c1Rec)], [("u1", ⟨((4263093 : ℚ)/13437500), ((766469 : ℚ)/2187500), ((5210447 : ℚ)/94062500), ((5210447 : ℚ)/94062500), ((5210447 : ℚ)/94062500), ((5210447 : ℚ)/94062500), ((5210447 : ℚ)/94062500), ((5210447 : ℚ)/94062500)⟩)], [], ⟨23, 1, 23, 0, 0, 0⟩⟩

def c1St24 : BSysState :=
  ⟨[("u1", List.replicate 24 c1Rec)], [("u1", ⟨((4100931 : ℚ)/13437500), ((820523 : ℚ)/2187500), ((5012249 : ℚ)/94062500), ((5012249 : ℚ)/94062500), ((5012249 : ℚ)/94062500), ((5012249 : ℚ)/94062500), ((5012249 : ℚ)/94062500), ((5012249 : ℚ)/94062500)⟩)], [], ⟨24, 1, 24, 0, 0, 0⟩⟩

def c1St25 : BSysState :=
  ⟨[("u1", List.replicate 25 c1Rec)], [("u1", ⟨((3938769 : ℚ)/13437500), ((874577 : ℚ)/2187500), ((4814051 : ℚ)/94062500), ((4814051 : ℚ)/94062500), ((4814051 : ℚ)/94062500), ((4814051 : ℚ)/94062500), ((4814051 : ℚ)/94062500), ((4814051 : ℚ)/94062500)⟩)], [], ⟨25, 1, 25, 0, 0, 0⟩⟩

def c1St26 : BSysState :=
  ⟨[("u1", List.replicate 26 c1Rec)], [("u1", ⟨((3776607 : ℚ)/13437500), ((928631 : ℚ)/2187500), ((4615853 : ℚ)/94062500), ((4615853 : ℚ)/94062500), ((4615853 : ℚ)/94062500), ((4615853 : ℚ)/94062500), ((4615853 : ℚ)/94062500), ((4615853 : ℚ)/94062500)⟩)], [], ⟨26, 1, 26, 0, 0, 0⟩⟩

def c1St27 : BSysState :=
  ⟨[("u1", List.replicate 27 c1Rec)], [("u1", ⟨((722889 : ℚ)/2687500), ((196537 : ℚ)/437500), ((883531 : ℚ)/18812500), ((883531 : ℚ)/18812500), ((883531 : ℚ)/18812500), ((883531 : ℚ)/18812500), ((883531 : ℚ)/18812500), ((883531 : ℚ)/18812500)⟩)], [], ⟨27, 1, 27, 0, 0, 0⟩⟩

def c1St28 : BSysState :=
  ⟨[("u1", List.replicate 28 c1Rec)], [("u1", ⟨((21041015183649 : ℚ)/80306840312500), ((5720571209617 : ℚ)/13073206562500), ((6741977 : ℚ)/94062500), ((25716796335571 : ℚ)/562147882187500), ((25716796335571 : ℚ)/562147882187500), ((25716796335571 : ℚ)/562147882187500), ((25716796335571 : ℚ)/562147882187500), ((25716796335571 : ℚ)/562147882187500)⟩)], [], ⟨28, 1, 28, 0, 0, 0⟩⟩

def c1St29 : BSysState :=
  ⟨[("u1", List.replicate 29 c1Rec)], [("u1", ⟨((20480939581563 : ℚ)/80306840312500), ((5568299451979 : ℚ)/13073206562500), ((9066299 : ℚ)/94062500), ((25032259488577 : ℚ)/562147882187500), ((25032259488577 : ℚ)/562147882187500), ((25032259488577 : ℚ)/562147882187500), ((25032259488577 : ℚ)/562147882187500), ((25032259488577 : ℚ)/562147882187500)⟩)], [], ⟨29, 1, 29, 0, 0, 0⟩⟩

def c1St30 : BSysState :=
  ⟨[("u1", List.replicate 30 c1Rec)], [("u1", ⟨((19920863979477 : ℚ)/80306840312500), ((5416027694341 : ℚ)/13073206562500), ((11390621 : ℚ)/94062500), ((24347722641583 : ℚ)/562147882187500), ((24347722641583 : ℚ)/562147882187500), ((24347722641583 : ℚ)/562147882187500), ((24347722641583 : ℚ)/562147882187500), ((24347722641583 : ℚ)/562147882187500)⟩)], [], ⟨30, 1, 30, 0, 0, 0⟩⟩

def c1St31 : BSysState :=
  ⟨[("u1", List.replicate 31 c1Rec)], [("u1", ⟨((19360788377391 : ℚ)/80306840312500), ((5263755936703 : ℚ)/13073206562500), ((13714943 : ℚ)/94062500), ((23663185794589 : ℚ)/562147882187500), ((23663185794589 : ℚ)/562147882187500), ((23663185794589 : ℚ)/562147882187500), ((23663185794589 : ℚ)/562147882187500), ((23663185794589 : ℚ)/562147882187500)⟩)], [], ⟨31, 1, 31, 0, 0, 0⟩⟩

def c1St32 : BSysState :=
  ⟨[("u1", List.replicate 32 c1Rec)], [("u1", ⟨((3760142555061 : ℚ)/16061368062500), ((1022296835813 : ℚ)/2614641312500), ((3207853 : ℚ)/18812500), ((4595729789519 : ℚ)/112429576437500), ((4595729789519 : ℚ)/112429576437500), ((4595729789519 : ℚ)/112429576437500), ((4595729789519 : ℚ)/112429576437500), ((4595729789519 : ℚ)/112429576437500)⟩)], [], ⟨32, 1, 32, 0, 0, 0⟩⟩

def c1St33 : BSysState :=
  ⟨[("u1", List.replicate 33 c1Rec)], [("u1", ⟨((18240637173219 : ℚ)/80306840312500), ((4959212421427 : ℚ)/13073206562500), ((18363587 : ℚ)/94062500), ((22294112100601 : ℚ)/562147882187500), ((22294112100601 : ℚ)/562147882187500), ((22294112100601 : ℚ)/562147882187500), ((22294112100601 : ℚ)/562147882187500), ((22294112100601 : ℚ)/562147882187500)⟩)], [], ⟨33, 1, 33, 0, 0, 0⟩⟩

def c1St34 : BSysState :=
  ⟨[("u1", List.replicate 34 c1Rec)], [("u1", ⟨((17680561571133 : ℚ)/80306840312500), ((4806940663789 : ℚ)/13073206562500), ((20687909 : ℚ)/94062500), ((21609575253607 : ℚ)/562147882187500), ((21609575253607 : ℚ)/562147882187500), ((21609575253607 : ℚ)/562147882187500), ((21609575253607 : ℚ)/562147882187500), ((21609575253607 : ℚ)/562147882187500)⟩)], [], ⟨34, 1, 34, 0, 0, 0⟩⟩

def c1St35 : BSysState :=
  ⟨[("u1", List.replicate 35 c1Rec)], [("u1", ⟨((17120485969047 : ℚ)/80306840312500), ((4654668906151 : ℚ)/13073206562500), ((23012231 : ℚ)/94062500), ((20925038406613 : ℚ)/562147882187500), ((20925038406613 : ℚ)/562147882187500), ((20925038406613 : ℚ)/562147882187500), ((20925038406613 : ℚ)/562147882187500), ((20925038406613 : ℚ)/562147882187500)⟩)], [], ⟨35, 1, 35, 0, 0, 0⟩⟩

def c1St36 : BSysState :=
  ⟨[("u1", List.replicate 36 c1Rec)], [("u1", ⟨((16560410366961 : ℚ)/80306840312500), ((4502397148513 : ℚ)/13073206562500), ((25336553 : ℚ)/94062500), ((20240501559619 : ℚ)/562147882187500), ((20240501559619 : ℚ)/562147882187500), ((20240501559619 : ℚ)/562147882187500), ((20240501559619 : ℚ)/562147882187500), ((20240501559619 : ℚ)/562147882187500)⟩)], [], ⟨36, 1, 36, 0, 0, 0⟩⟩

def c1St37 : BSysState :=
  ⟨[("u1", List.replicate 37 c1Rec)], [("u1", ⟨((128002678119 : ℚ)/642454722500), ((34801003127 : ℚ)/104585652500), ((221287 : ℚ)/752500), ((156447717701 : ℚ)/4497183057500), ((156447717701 : ℚ)/4497183057500), ((156447717701 : ℚ)/4497183057500), ((156447717701 : ℚ)/4497183057500), ((156447717701 : ℚ)/4497183057500)⟩)], [], ⟨37, 1, 37, 0, 0, 0⟩⟩

def c1St38 : BSysState :=
  ⟨[("u1", List.replicate 38 c1Rec)], [("u1", ⟨((15440259162789 : ℚ)/80306840312500), ((4197853633237 : ℚ)/13073206562500), ((29985197 : ℚ)/94062500), ((18871427865631 : ℚ)/562147882187500), ((18871427865631 : ℚ)/562147882187500), ((18871427865631 : ℚ)/562147882187500), ((18871427865631 : ℚ)/562147882187500), ((18871427865631 : ℚ)/562147882187500)⟩)], [], ⟨38, 1, 38, 0, 0, 0⟩⟩

def c1St39 : BSysState :=
  ⟨[("u1", List.replicate 39 c1Rec)], [("u1", ⟨((14880183560703 : ℚ)/80306840312500), ((4045581875599 : ℚ)/13073206562500), ((32309519 : ℚ)/94062500), ((18186891018637 : ℚ)/562147882187500), ((18186891018637 : ℚ)/562147882187500), ((18186891018637 : ℚ)/562147882187500), ((18186891018637 : ℚ)/562147882187500), ((18186891018637 : ℚ)/562147882187500)⟩)], [], ⟨39, 1, 39, 0, 0, 0⟩⟩

def c1St40 : BSysState :=
  ⟨[("u1", List.replicate 40 c1Rec)], [("u1", ⟨((14320107958617 : ℚ)/80306840312500), ((3893310117961 : ℚ)/13073206562500), ((34633841 : ℚ)/94062500), ((17502354171643 : ℚ)/562147882187500), ((17502354171643 : ℚ)/562147882187500), ((17502354171643 : ℚ)/562147882187500), ((17502354171643 : ℚ)/562147882187500), ((17502354171643 : ℚ)/562147882187500)⟩)], [], ⟨40, 1, 40, 0, 0, 0⟩⟩

def c1St41 : BSysState :=
  ⟨[("u1", List.replicate 41 c1Rec)], [("u1", ⟨((13760032356531 : ℚ)/80306840312500), ((3741038360323 : ℚ)/13073206562500), ((36958163 : ℚ)/94062500), ((16817817324649 : ℚ)/562147882187500), ((16817817324649 : ℚ)/562147882187500), ((16817817324649 : ℚ)/562147882187500), ((16817817324649 : ℚ)/562147882187500), ((16817817324649 : ℚ)/562147882187500)⟩)], [], ⟨41, 1, 41, 0, 0, 0⟩⟩

def c1St42 : BSysState :=
  ⟨[("u1", List.replicate 42 c1Rec)], [("u1", ⟨((2639991350889 : ℚ)/16061368062500), ((717753320537 : ℚ)/2614641312500), ((7856497 : ℚ)/18812500), ((3226656095531 : ℚ)/112429576437500), ((3226656095531 : ℚ)/112429576437500), ((3226656095531 : ℚ)/112429576437500), ((3226656095531 : ℚ)/112429576437500), ((3226656095531 : ℚ)/112429576437500)⟩)], [], ⟨42, 1, 42, 0, 0, 0⟩⟩

def c1St43 : BSysState :=
  ⟨[("u1", List.replicate 43 c1Rec)], [("u1", ⟨((12639881152359 : ℚ)/80306840312500), ((3436494845047 : ℚ)/13073206562500), ((41606807 : ℚ)/94062500), ((15448743630661 : ℚ)/562147882187500), ((15448743630661 : ℚ)/562147882187500), ((15448743630661 : ℚ)/562147882187500), ((15448743630661 : ℚ)/562147882187500), ((15448743630661 : ℚ)/562147882187500)⟩)], [], ⟨43, 1, 43, 0, 0, 0⟩⟩

def c1St44 : BSysState :=
  ⟨[("u1", List.replicate 44 c1Rec)], [("u1", ⟨((18554151 : ℚ)/119526460), ((92962001 : ℚ)/358579380), ((9 : ℚ)/20), ((9718841 : ℚ)/358579380), ((9718841 : ℚ)/358579380), ((9718841 : ℚ)/358579380), ((9718841 : ℚ)/358579380), ((9718841 : ℚ)/358579380)⟩)], [], ⟨44, 1, 44, 0, 0, 0⟩⟩

def c1St45 : BSysState :=
  ⟨[("u1", List.replicate 45 c1Rec)], [("u1", ⟨((98568897932372289807 : ℚ)/651532269693155312500), ((493860483735315657257 : ℚ)/1954596809079465937500), ((47812485809313 : ℚ)/109018918437500), ((290304389243 : ℚ)/5602802812500), ((51631327488385485137 : ℚ)/1954596809079465937500), ((51631327488385485137 : ℚ)/1954596809079465937500), ((51631327488385485137 : ℚ)/1954596809079465937500), ((51631327488385485137 : ℚ)/1954596809079465937500)⟩)], [], ⟨45, 1, 45, 0, 0, 0⟩⟩

def c1St46 : BSysState :=
  ⟨[("u1", List.replicate 46 c1Rec)], [("u1", ⟨((96000122137441626489 : ℚ)/651532269693155312500), ((480990127230341642639 : ℚ)/1954596809079465937500), ((46566458321751 : ℚ)/109018918437500), ((428751887861 : ℚ)/5602802812500), ((50285778262469423399 : ℚ)/1954596809079465937500), ((50285778262469423399 : ℚ)/1954596809079465937500), ((50285778262469423399 : ℚ)/1954596809079465937500), ((50285778262469423399 : ℚ)/1954596809079465937500)⟩)], [], ⟨46, 1, 46, 0, 0, 0⟩⟩

def c1St47 : BSysState :=
  ⟨[("u1", List.replicate 47 c1Rec)], [("u1", ⟨((93431346342510963171 : ℚ)/651532269693155312500), ((468119770725367628021 : ℚ)/1954596809079465937500), ((45320430834189 : ℚ)/109018918437500), ((567199386479 : ℚ)/5602802812500), ((48940229036553361661 : ℚ)/1954596809079465937500), ((48940229036553361661 : ℚ)/1954596809079465937500), ((48940229036553361661 : ℚ)/1954596809079465937500), ((48940229036553361661 : ℚ)/1954596809079465937500)⟩)], [], ⟨47, 1, 47, 0, 0, 0⟩⟩

def c1St48 : BSysState :=
  ⟨[("u1", List.replicate 48 c1Rec)], [("u1", ⟨((90862570547580299853 : ℚ)/651532269693155312500), ((455249414220393613403 : ℚ)/1954596809079465937500), ((44074403346627 : ℚ)/109018918437500), ((705646885097 : ℚ)/5602802812500), ((47594679810637299923 : ℚ)/1954596809079465937500), ((47594679810637299923 : ℚ)/1954596809079465937500), ((47594679810637299923 : ℚ)/1954596809079465937500), ((47594679810637299923 : ℚ)/1954596809079465937500)⟩)], [], ⟨48, 1, 48, 0, 0, 0⟩⟩

def c1St49 : BSysState :=
  ⟨[("u1", List.replicate 49 c1Rec)], [("u1", ⟨((17658758950529927307 : ℚ)/130306453938631062500), ((88475811543083919757 : ℚ)/390919361815893187500), ((8565675171813 : ℚ)/21803783687500), ((168818876743 : ℚ)/1120560562500), ((9249826116944247637 : ℚ)/390919361815893187500), ((9249826116944247637 : ℚ)/390919361815893187500), ((9249826116944247637 : ℚ)/390919361815893187500), ((9249826116944247637 : ℚ)/390919361815893187500)⟩)], [], ⟨49, 1, 49, 0, 0, 0⟩⟩

def c1St50 : BSysState :=
  ⟨[("u1", List.replicate 50 c1Rec)], [("u1", ⟨((85725018957718973217 : ℚ)/651532269693155312500), ((429508701210445584167 : ℚ)/1954596809079465937500), ((41582348371503 : ℚ)/109018918437500), ((982541882333 : ℚ)/5602802812500), ((44903581358805176447 : ℚ)/1954596809079465937500), ((44903581358805176447 : ℚ)/1954596809079465937500), ((44903581358805176447 : ℚ)/1954596809079465937500), ((44903581358805176447 : ℚ)/1954596809079465937500)⟩)], [], ⟨50, 1, 50, 0, 0, 0⟩⟩

def c1St51 : BSysState :=
  ⟨[("u1", List.replicate 51 c1Rec)], [("u1", ⟨((83156243162788309899 : ℚ)/651532269693155312500), ((416638344705471569549 : ℚ)/1954596809079465937500), ((40336320883941 : ℚ)/109018918437500), ((1120989380951 : ℚ)/5602802812500), ((43558032132889114709 : ℚ)/1954596809079465937500), ((43558032132889114709 : ℚ)/1954596809079465937500), ((43558032132889114709 : ℚ)/1954596809079465937500), ((43558032132889114709 : ℚ)/1954596809079465937500)⟩)], [], ⟨51, 1, 51, 0, 0, 0⟩⟩

def c1St52 : BSysState :=
  ⟨[("u1", List.replicate 52 c1Rec)], [("u1", ⟨((80587467367857646581 : ℚ)/651532269693155312500), ((403767988200497554931 : ℚ)/1954596809079465937500), ((39090293396379 : ℚ)/109018918437500), ((1259436879569 : ℚ)/5602802812500), ((42212482906973052971 : ℚ)/1954596809079465937500), ((42212482906973052971 : ℚ)/1954596809079465937500), ((42212482906973052971 : ℚ)/1954596809079465937500), ((42212482906973052971 : ℚ)/1954596809079465937500)⟩)], [], ⟨52, 1, 52, 0, 0, 0⟩⟩

def c1St53 : BSysState :=
  ⟨[("u1", List.replicate 53 c1Rec)], [("u1", ⟨((78018691572926983263 : ℚ)/651532269693155312500), ((390897631695523540313 : ℚ)/1954596809079465937500), ((37844265908817 : ℚ)/109018918437500), ((1397884378187 : ℚ)/5602802812500), ((40866933681056991233 : ℚ)/1954596809079465937500), ((40866933681056991233 : ℚ)/1954596809079465937500), ((40866933681056991233 : ℚ)/1954596809079465937500), ((40866933681056991233 : ℚ)/1954596809079465937500)⟩)], [], ⟨53, 1, 53, 0, 0, 0⟩⟩

def c1St54 : BSysState :=
  ⟨[("u1", List.replicate 54 c1Rec)], [("u1", ⟨((15089983155599263989 : ℚ)/130306453938631062500), ((75605455038109905139 : ℚ)/390919361815893187500), ((7319647684251 : ℚ)/21803783687500), ((307266375361 : ℚ)/1120560562500), ((7904276891028185899 : ℚ)/390919361815893187500), ((7904276891028185899 : ℚ)/390919361815893187500), ((7904276891028185899 : ℚ)/390919361815893187500), ((7904276891028185899 : ℚ)/390919361815893187500)⟩)], [], ⟨54, 1, 54, 0, 0, 0⟩⟩

def c1St55 : BSysState :=
  ⟨[("u1", List.replicate 55 c1Rec)], [("u1", ⟨((218643419949196969881 : ℚ)/1958261212888923741472), ((365156918685575511077 : ℚ)/1958261212888923741472), ((633828693911642852517 : ℚ)/1958261212888923741472), ((584264435616151132997 : ℚ)/1958261212888923741472), ((19545968090794659375 : ℚ)/979130606444461870736), ((19545968090794659375 : ℚ)/979130606444461870736), ((19545968090794659375 : ℚ)/979130606444461870736), ((19545968090794659375 : ℚ)/979130606444461870736)⟩)], [], ⟨55, 1, 55, 0, 0, 0⟩⟩

theorem c1Step0 : (trackBehavior false (c1Evt "ai_ml") initState).2 = c1St1 := by
  decide

theorem c1Step1 : (trackBehavior false (c1Evt "ai_ml") c1St1).2 = c1St2 := by
  decide

theorem c1Step2 : (trackBehavior false (c1Evt "ai_ml") c1St2).2 = c1St3 := by
  decide

theorem c1Step3 : (trackBehavior false (c1Evt "ai_ml") c1St3).2 = c1St4 := by
  decide

theorem c1Step4 : (trackBehavior false (c1Evt "ai_ml") c1St4).2 = c1St5 := by
  decide

theorem c1Step5 : (trackBehavior false (c1Evt "ai_ml") c1St5).2 = c1St6 := by
  decide

theorem c1Step6 : (trackBehavior false (c1Evt "ai_ml") c1St6).2 = c1St7 := by
  decide

theorem c1Step7 : (trackBehavior false (c1Evt "ai_ml") c1St7).2 = c1St8 := by
  decide

theorem c1Step8 : (trackBehavior false (c1Evt "ai_ml") c1St8).2 = c1St9 := by
  decide

theorem c1Step9 : (trackBehavior false (c1Evt "ai_ml") c1St9).2 = c1St10 := by
  decide

theorem c1Step10 : (trackBehavior false (c1Evt "ai_ml") c1St10).2 = c1St11 := by
  decide

theorem c1Step11 : (trackBehavior false (c1Evt "ai_ml") c1St11).2 = c1St12 := by
  decide

theorem c1Step12 : (trackBehavior false (c1Evt "startup_venture") c1St12).2 = c1St13 := by
  decide

theorem c1Step13 : (trackBehavior false (c1Evt "startup_venture") c1St13).2 = c1St14 := by
  decide

theorem c1Step14 : (trackBehavior false (c1Evt "startup_venture") c1St14).2 = c1St15 := by
  decide

theorem c1Step15 : (trackBehavior false (c1Evt "startup_venture") c1St15).2 = c1St16 := by
  decide

theorem c1Step16 : (trackBehavior false (c1Evt "startup_venture") c1St16).2 = c1St17 := by
  decide

theorem c1Step17 : (trackBehavior false (c1Evt "startup_venture") c1St17).2 = c1St18 := by
  decide

theorem c1Step18 : (trackBehavior false (c1Evt "startup_venture") c1St18).2 = c1St19 := by
  decide

theorem c1Step19 : (trackBehavior false (c1Evt "startup_venture") c1St19).2 = c1St20 := by
  decide

theorem c1Step20 : (trackBehavior false (c1Evt "startup_venture") c1St20).2 = c1St21 := by
  decide

theorem c1Step21 : (trackBehavior false (c1Evt "startup_venture") c1St21).2 = c1St22 := by
  decide

theorem c1Step22 : (trackBehavior false (c1Evt "startup_venture") c1St22).2 = c1St23 := by
  decide

theorem c1Step23 : (trackBehavior false (c1Evt "startup_venture") c1St23).2 = c1St24 := by
  decide

theorem c1Step24 : (trackBehavior false (c1Evt "startup_venture") c1St24).2 = c1St25 := by
  decide

theorem c1Step25 : (trackBehavior false (c1Evt "startup_venture") c1St25).2 = c1St26 := by
  decide

theorem c1Step26 : (trackBehavior false (c1Evt "startup_venture") c1St26).2 = c1St27 := by
  decide

theorem c1Step27 : (trackBehavior false (c1Evt "web3_crypto") c1St27).2 = c1St28 := by
  decide

theorem c1Step28 : (trackBehavior false (c1Evt "web3_crypto") c1St28).2 = c1St29 := by
  decide

theorem c1Step29 : (trackBehavior false (c1Evt "web3_crypto") c1St29).2 = c1St30 := by
  decide

theorem c1Step30 : (trackBehavior false (c1Evt "web3_crypto") c1St30).2 = c1St31 := by
  decide

theorem c1Step31 : (trackBehavior false (c1Evt "web3_crypto") c1St31).2 = c1St32 := by
  decide

theorem c1Step32 : (trackBehavior false (c1Evt "web3_crypto") c1St32).2 = c1St33 := by
  decide

theorem c1Step33 : (trackBehavior false (c1Evt "web3_crypto") c1St33).2 = c1St34 := by
  decide

theorem c1Step34 : (trackBehavior false (c1Evt "web3_crypto") c1St34).2 = c1St35 := by
  decide

theorem c1Step35 : (trackBehavior false (c1Evt "web3_crypto") c1St35).2 = c1St36 := by
  decide

theorem c1Step36 : (trackBehavior false (c1Evt "web3_crypto") c1St36).2 = c1St37 := by
  decide

theorem c1Step37 : (trackBehavior false (c1Evt "web3_crypto") c1St37).2 = c1St38 := by
  decide

theorem c1Step38 : (trackBehavior false (c1Evt "web3_crypto") c1St38).2 = c1St39 := by
  decide

theorem c1Step39 : (trackBehavior false (c1Evt "web3_crypto") c1St39).2 = c1St40 := by
  decide

theorem c1Step40 : (trackBehavior false (c1Evt "web3_crypto") c1St40).2 = c1St41 := by
  decide

theorem c1Step41 : (trackBehavior false (c1Evt "web3_crypto") c1St41).2 = c1St42 := by
  decide

theorem c1Step42 : (trackBehavior false (c1Evt "web3_crypto") c1St42).2 = c1St43 := by
  decide

theorem c1Step43 : (trackBehavior false (c1Evt "web3_crypto") c1St43).2 = c1St44 := by
  decide

theorem c1Step44 : (trackBehavior false (c1Evt "programming") c1St44).2 = c1St45 := by
  decide

theorem c1Step45 : (trackBehavior false (c1Evt "programming") c1St45).2 = c1St46 := by
  decide

theorem c1Step46 : (trackBehavior false (c1Evt "programming") c1St46).2 = c1St47 := by
  decide

theorem c1Step47 : (trackBehavior false (c1Evt "programming") c1St47).2 = c1St48 := by
  decide

theorem c1Step48 : (trackBehavior false (c1Evt "programming") c1St48).2 = c1St49 := by
  decide

theorem c1Step49 : (trackBehavior false (c1Evt "programming") c1St49).2 = c1St50 := by
  decide

theorem c1Step50 : (trackBehavior false (c1Evt "programming") c1St50).2 = c1St51 := by
  decide

theorem c1Step51 : (trackBehavior false (c1Evt "programming") c1St51).2 = c1St52 := by
  decide

theorem c1Step52 : (trackBehavior false (c1Evt "programming") c1St52).2 = c1St53 := by
  decide

theorem c1Step53 : (trackBehavior false (c1Evt "programming") c1St53).2 = c1St54 := by
  decide

theorem c1Step54 : (trackBehavior false (c1Evt "programming") c1St54).2 = c1St55 := by
  decide

/-- C1: refuted.  Running the 55 deep-read events of `c1Events` through
`track_behavior` (test mode off, time weight 1, DB save ok) reaches `c1St55`;
the last event is accepted (`success = true`), yet in the resulting preference
vector of user "u1" the `hardware_chips` weight is strictly below
`min_weight` (0.02): the final renormalization divides the already-floored
weights by a total above 1. -/
theorem c1_min_weight_violated :
    (trackBehavior false (c1Evt "programming") c1St54).1.success = true ∧
    foldTrack false c1Events initState = c1St55 ∧
    getW (prefsView (foldTrack false c1Events initState) "u1") Cat.hardwareChips
      < minWeight := by
  have hfold : foldTrack false c1Events initState = c1St55 := by
    simp only [c1Events, c1Cats, List.map, foldTrack]
    rw [c1Step0, c1Step1, c1Step2, c1Step3, c1Step4, c1Step5, c1Step6, c1Step7, c1Step8, c1Step9, c1Step10, c1Step11, c1Step12, c1Step13, c1Step14, c1Step15, c1Step16, c1Step17, c1Step18, c1Step19, c1Step20, c1Step21, c1Step22, c1Step23, c1Step24, c1Step25, c1Step26, c1Step27, c1Step28, c1Step29, c1Step30, c1Step31, c1Step32, c1Step33, c1Step34, c1Step35, c1Step36, c1Step37, c1Step38, c1Step39, c1Step40, c1Step41, c1Step42, c1Step43, c1Step44, c1Step45, c1Step46, c1Step47, c1Step48, c1Step49, c1Step50, c1Step51, c1Step52, c1Step53, c1Step54]
  refine ⟨by decide, hfold, ?_⟩
  rw [hfold]
  decide

/-- Witness for C8 at the concrete candidate pool `c8Scored`. -/
theorem c8_diversity_limit_ten_witness :
    (7 ≤ (c8Scored.filter fun v =>
        decide (v.item.category ∈ (["ai_ml"] : List String))).length ∧
     2 ≤ (c8Scored.filter fun v =>
        decide (v.item.category ∉ (["ai_ml"] : List String)) &&
          isAnyRelated v.item.category ["ai_ml"]).length ∧
     1 ≤ (c8Scored.filter fun v =>
        decide (v.item.category ∉ (["ai_ml"] : List String)) &&
          !(isAnyRelated v.item.category ["ai_ml"])).length) ∧
    (((applyDiversityControl c8Scored ["ai_ml"] 10).filter fun v =>
        decide (v.item.category = "ai_ml")).length ≤ 7 ∧
     (∀ i, i + 2 < (applyDiversityControl c8Scored ["ai_ml"] 10).length →
       catAt (applyDiversityControl c8Scored ["ai_ml"] 10) i
         = catAt (applyDiversityControl c8Scored ["ai_ml"] 10) (i + 1) →
       catAt (applyDiversityControl c8Scored ["ai_ml"] 10) (i + 1)
         = catAt (applyDiversityControl c8Scored ["ai_ml"] 10) (i + 2) →
       ∀ j, i ≤ j → j < (applyDiversityControl c8Scored ["ai_ml"] 10).length →
         catAt (applyDiversityControl c8Scored ["ai_ml"] 10) j
           = catAt (applyDiversityControl c8Scored ["ai_ml"] 10) i)) :=
  ⟨⟨by decide, by decide, by decide⟩,
   c8_diversity_limit_ten c8Scored "ai_ml" (by decide) (by decide) (by decide)⟩

end NewsAgent
